import Mathlib

/-!
# GMC-300E serial reader: the protocol engine of `gmc300e/connector.go`

A shallow embedding of the `Connector` type of package `gmc300e` and of its
methods, followed by theorems about them.

Modelling conventions.

* A Go `[]byte` and a Go `string` are both finite byte sequences
  (`List Byte`); the conversions `[]byte(s)` and `string(b)` are the identity.
  A nil slice and an empty slice are the same list `[]` (the source only ever
  tests `b == nil || len(b) == 0`).
* The serial library (`go.bug.st/serial.v1`) is not part of the repository.
  It is a parameter: a record `Serial σ` of the five operations the source
  calls, acting on an arbitrary port state `σ`.
* A method of the source becomes a function from the state before the call to
  an outcome and the state after it.  The state carries the `Connector` struct
  and a ghost trace of the effects issued so far (`log.Printf` and
  `fmt.Println` output is not recorded).
* An outcome is a normal return, a run-time panic, or `outOfFuel`: the `for`
  loop of `WriteToPort` is run with a bound on the number of times its
  condition is evaluated.
* The zone table behind `time.Local` belongs to the environment of the
  process.  It is a parameter `Local` of `SendCommandAndGetResponseAsDateTime`
  and `GetDateTime`, the two methods that read it.
-/

namespace Gmc300e

/-! ## Data model -/

/-- One byte. -/
abbrev Byte := Fin 256

/-- Go strings are immutable byte sequences. -/
abbrev GoString := List Byte

/-- The bytes of an ASCII string literal of the source. -/
def lit (s : String) : GoString :=
  s.toList.map (fun ch => Fin.ofNat ch.toNat)

/-- Go `error` values that occur: the two made by `errors.New` in the source,
and the errors handed over by the serial library. -/
inductive Error where
  /-- The value `errors.New("port is not opened")`. -/
  | portNotOpened
  /-- The value of `errors.New(fmt.Sprintf("invalid Date/Time response array
  length. Expected 7, got %d", n))`. -/
  | invalidDateTimeLength (got : Nat)
  /-- An error produced by the serial library. -/
  | transport (code : Nat)
  deriving DecidableEq, Repr

/-- Text of an error (`err.Error()`). -/
def Error.message : Error → String
  | .portNotOpened => "port is not opened"
  | .invalidDateTimeLength got =>
      "invalid Date/Time response array length. Expected 7, got " ++ toString got
  | .transport code => "serial: error " ++ toString code

/-- Fields of `serial.Mode` that `Connect` fills in. -/
structure Mode where
  BaudRate : Int
  DataBits : Int
  Parity : Nat
  StopBits : Nat
  deriving DecidableEq, Repr

/-- Go struct `ConnectorConfig`. -/
structure ConnectorConfig where
  UsbPort : GoString
  BaudRate : Int
  DataBits : Int
  StopBits : Nat
  Parity : Nat
  ReadTimeout : Int
  WriteTimeout : Int
  WaitBetweenSendAndReceive : Int
  deriving DecidableEq, Repr

/-- Go struct `Connector`; `port` is `none` for the nil interface value. -/
structure Connector (σ : Type) where
  config : ConnectorConfig
  isOpened : Bool
  port : Option σ
  deriving DecidableEq, Repr

/-- The serial library, as far as the source uses it.

* `Open` is `serial.Open`: a port (or nil) and an error (or nil).
* `Write p data` is `port.Write(data)`: the reported count and error.
* `Read p buf` is `port.Read(buf)`: the bytes the call stores at the start of
  `buf`, the reported count and error.
* `GetModemStatusBits` returns status bits, which the source only logs, and an
  error.
* `Close` is `port.Close()`. -/
structure Serial (σ : Type) where
  Open : GoString → Mode → Option σ × Option Error
  Write : σ → List Byte → (Int × Option Error) × σ
  Read : σ → List Byte → (List Byte × Int × Option Error) × σ
  GetModemStatusBits : σ → Option Error × σ
  Close : σ → Option Error × σ

/-- Effects on the outside world, in the order issued. -/
inductive Event where
  /-- A call of `serial.Open`, whether or not it succeeds. -/
  | openCall (portName : GoString) (mode : Mode)
  | write (data : List Byte)
  | sleep (duration : Int)
  | status
  | read (capacity : Nat)
  | close
  deriving DecidableEq, Repr

/-- Run-time panics of the Go runtime that the source can reach. -/
inductive Panic where
  /-- A method call on a nil interface value. -/
  | nilDereference
  /-- A slice expression `b[:n]` with `n` outside `0..cap(b)`. -/
  | sliceBounds
  /-- An index expression `b[i]` with `i` outside `0..len(b)-1`. -/
  | indexOutOfRange
  deriving DecidableEq, Repr

/-- Outcome of running a method. -/
inductive Exec (α : Type) where
  | ret (a : α)
  | panic (p : Panic)
  | outOfFuel
  deriving DecidableEq, Repr

/-- Program state: the receiver and the ghost trace of effects. -/
structure State (σ : Type) where
  conn : Connector σ
  trace : List Event
  deriving DecidableEq, Repr

/-- Zero value of `ConnectorConfig`. -/
def ConnectorConfig.zero : ConnectorConfig :=
  ⟨[], 0, 0, 0, 0, 0, 0, 0⟩

/-- State right after `new(gmc300e.Connector)`. -/
def State.fresh (σ : Type) : State σ :=
  ⟨⟨ConnectorConfig.zero, false, none⟩, []⟩

/-! ## Command framer -/

/-- Source: `constructCommand`, `"<"+command+">>"`. -/
def constructCommand (command : GoString) : GoString :=
  lit "<" ++ command ++ lit ">>"

/-! ## Connection lifecycle -/

/-- Source: `openPort`, a call of `serial.Open`. -/
def openPort {σ : Type} (S : Serial σ) (s : State σ) (portName : GoString) (mode : Mode) :
    (Option σ × Option Error) × State σ :=
  (S.Open portName mode, { s with trace := s.trace ++ [Event.openCall portName mode] })

/-- Source: `Connect`. -/
def Connect {σ : Type} (S : Serial σ) (s : State σ) (config : ConnectorConfig) :
    Exec (Option Error) × State σ :=
  let portMode : Mode :=
    { BaudRate := config.BaudRate, DataBits := config.DataBits,
      Parity := config.Parity, StopBits := config.StopBits }
  let r := openPort S s config.UsbPort portMode
  let port := r.1.1
  let err := r.1.2
  let s1 := r.2
  if err ≠ none then
    (Exec.ret err, { s1 with conn := { s1.conn with isOpened := false } })
  else
    (Exec.ret none,
      { s1 with conn := { port := port, isOpened := true, config := config } })

/-- Source: `closePort` called from `Disconnect`, `port.Close()`; a nil port
makes the method call panic. -/
def closePort {σ : Type} (S : Serial σ) (s : State σ) (port : Option σ) :
    Exec (Option Error) × State σ :=
  match port with
  | none => (Exec.panic Panic.nilDereference, s)
  | some p =>
    let r := S.Close p
    (Exec.ret r.1,
      { conn := { s.conn with port := some r.2 }, trace := s.trace ++ [Event.close] })

/-- Source: `Disconnect`, `return c.closePort(c.port)`. -/
def Disconnect {σ : Type} (S : Serial σ) (s : State σ) : Exec (Option Error) × State σ :=
  closePort S s s.conn.port

/-! ## Exchange engine -/

/-- Content of a buffer after a `Read` call stored `stored` at its start: the
length of the caller's slice is unchanged. -/
def fillBuffer (buf stored : List Byte) : List Byte :=
  (stored ++ buf.drop stored.length).take buf.length

/-- Source: `ReadFromPort`. -/
def ReadFromPort {σ : Type} (S : Serial σ) (s : State σ) :
    Exec (List Byte × Option Error) × State σ :=
  if !s.conn.isOpened then
    (Exec.ret ([], some Error.portNotOpened), s)
  else
    let buffer : List Byte := []
    let tempBuff : List Byte := List.replicate 1024 0
    match s.conn.port with
    | none => (Exec.panic Panic.nilDereference, s)
    | some p =>
      let r := S.GetModemStatusBits p
      let s1 : State σ :=
        { conn := { s.conn with port := some r.2 }, trace := s.trace ++ [Event.status] }
      if r.1 ≠ none then
        (Exec.ret ([], r.1), s1)
      else
        let q := S.Read r.2 tempBuff
        let n : Int := q.1.2.1
        let err := q.1.2.2
        let tempBuff := fillBuffer tempBuff q.1.1
        let s2 : State σ :=
          { conn := { s1.conn with port := some q.2 },
            trace := s1.trace ++ [Event.read 1024] }
        if err ≠ none then
          (Exec.ret ([], err), s2)
        else if n < 0 ∨ 1024 < n then
          (Exec.panic Panic.sliceBounds, s2)
        else
          (Exec.ret (buffer ++ tempBuff.take n.toNat, none), s2)

/-- The `for` statement of `WriteToPort` after its init statement has run:
`startIdx` and `err` are the loop's own variables, set once by the init
statement; there is no post statement and the body assigns nothing.  One unit
of fuel is spent each time the condition is evaluated. -/
def WriteToPort.loop (startIdx endIdx : Int) (err : Option Error) :
    Nat → Exec (Option Error)
  | 0 => Exec.outOfFuel
  | fuel + 1 =>
    if startIdx < endIdx then
      if err ≠ none then Exec.ret err
      else WriteToPort.loop startIdx endIdx err fuel
    else Exec.ret none

/-- Source: `WriteToPort`.  The init statement of the `for` calls
`c.port.Write(data[startIdx:endIdx])` with the outer `startIdx = 0`. -/
def WriteToPort {σ : Type} (S : Serial σ) (fuel : Nat) (s : State σ) (data : List Byte) :
    Exec (Option Error) × State σ :=
  let startIdx : Nat := 0
  let endIdx : Nat := data.length
  match s.conn.port with
  | none => (Exec.panic Panic.nilDereference, s)
  | some p =>
    let chunk := (data.take endIdx).drop startIdx
    let r := S.Write p chunk
    let s1 : State σ :=
      { conn := { s.conn with port := some r.2 }, trace := s.trace ++ [Event.write chunk] }
    (WriteToPort.loop r.1.1 endIdx r.1.2 fuel, s1)

/-- Source: `SendCommandAndGetResponse`. -/
def SendCommandAndGetResponse {σ : Type} (S : Serial σ) (fuel : Nat) (s : State σ)
    (command : GoString) : Exec (List Byte × Option Error) × State σ :=
  match WriteToPort S fuel s command with
  | (Exec.panic p, s1) => (Exec.panic p, s1)
  | (Exec.outOfFuel, s1) => (Exec.outOfFuel, s1)
  | (Exec.ret (some err), s1) => (Exec.ret ([], some err), s1)
  | (Exec.ret none, s1) =>
    let s2 : State σ :=
      { s1 with trace := s1.trace ++ [Event.sleep s1.conn.config.WaitBetweenSendAndReceive] }
    match ReadFromPort S s2 with
    | (Exec.panic p, s3) => (Exec.panic p, s3)
    | (Exec.outOfFuel, s3) => (Exec.outOfFuel, s3)
    | (Exec.ret (_, some err), s3) => (Exec.ret ([], some err), s3)
    | (Exec.ret (response, none), s3) => (Exec.ret (response, none), s3)

/-! ## Calendar time

Package `time` of the Go standard library is not part of the repository.  The
source calls `time.Date` and returns `time.Time` values; the definitions of
this section follow the library (`time.Date`, `norm`, `daysSinceEpoch`,
`isLeap`, `(*Location).lookup`, `Time.abs`, `absDate`, `absClock` as in
Go 1.22).  The value of `time.Local` comes from the environment of the
process: it is a parameter `Local` of the two methods that read it. -/

/-- Go `time.Location`: the zone table.  `first` is the offset from UTC, in
seconds, of the zone in force before the first transition; `tx` lists the
transitions in ascending order of time, each with the Unix time at which it
takes effect and the offset of the zone it enters (the transitions given by
the table's extension rule are listed out). -/
structure Location where
  first : Int
  tx : List (Int × Int)
  deriving DecidableEq, Repr

/-- The location `time.UTC`, also the nil location of the zero `Time`: no
zones, offset 0 throughout. -/
def Location.UTC : Location :=
  { first := 0, tx := [] }

/-- Library constant `alpha`, `math.MinInt64`: start of the first zone
period. -/
def zoneAlpha : Int := -(2 ^ 63)

/-- Library constant `omega`, `math.MaxInt64`: end of the last zone period. -/
def zoneOmega : Int := 2 ^ 63 - 1

/-- Scan of the zone table: `offset` and `start` belong to the zone period
entered last; the result is the offset, start and end of the period that
contains `sec`. -/
def Location.lookupFrom (offset start : Int) : List (Int × Int) → Int → Int × Int × Int
  | [], _ => (offset, start, zoneOmega)
  | (whenSec, off) :: rest, sec =>
    if sec < whenSec then (offset, start, whenSec)
    else Location.lookupFrom off whenSec rest sec

/-- Library `(*Location).lookup`: the UTC offset in force at the Unix time
`sec` and the start and end of the zone period containing `sec`.  The library
finds the period by binary search over the same ascending table. -/
def Location.lookup (l : Location) (sec : Int) : Int × Int × Int :=
  Location.lookupFrom l.first zoneAlpha l.tx sec

/-- Go `time.Time`, as the seconds since the Unix epoch (`t.unixSec()`), the
nanoseconds within the second, and the location. -/
structure Time where
  sec : Int
  nsec : Nat
  loc : Location
  deriving DecidableEq, Repr

def secondsPerMinute : Nat := 60
def secondsPerHour : Nat := 60 * secondsPerMinute
def secondsPerDay : Nat := 24 * secondsPerHour
def daysPer400Years : Nat := 365 * 400 + 97
def daysPer100Years : Nat := 365 * 100 + 24
def daysPer4Years : Nat := 365 * 4 + 1

/-- Year of the library's absolute epoch. -/
def absoluteZeroYear : Int := -292277022399

/-- Conversion of an integer to `uint64`. -/
def toUint64 (x : Int) : Nat := (x % 2 ^ 64).toNat

/-- Wrap-around of `int64` arithmetic. -/
def toInt64 (x : Int) : Int := (x + 2 ^ 63) % 2 ^ 64 - 2 ^ 63

/-- Library constant `unixToInternal`: seconds from 1 January of year 1 to
the Unix epoch. -/
def unixToInternal : Int := 62135596800

/-- Library constant `internalToUnix`. -/
def internalToUnix : Int := -unixToInternal

/-- Library constant `absoluteToInternal`: seconds from the absolute epoch to
1 January of year 1, negated. -/
def absoluteToInternal : Int := -9223371966579724800

/-- Library constant `internalToAbsolute`. -/
def internalToAbsolute : Int := -absoluteToInternal

/-- Library table `daysBefore`: days in a non-leap year before month `m+1`. -/
def daysBefore : List Nat :=
  [0, 31, 59, 90, 120, 151, 181, 212, 243, 273, 304, 334, 365]

/-- Library `isLeap`; Go's `%` truncates towards zero. -/
def isLeap (year : Int) : Bool :=
  year.tmod 4 == 0 && (year.tmod 100 != 0 || year.tmod 400 == 0)

/-- Library `norm`: `(nhi, nlo)` with `hi*base + lo = nhi*base + nlo` and
`0 ≤ nlo < base`; Go's `/` truncates towards zero. -/
def norm (hi lo base : Int) : Int × Int :=
  let r1 : Int × Int :=
    if lo < 0 then
      let n := (-lo - 1).tdiv base + 1
      (hi - n, lo + n * base)
    else (hi, lo)
  if r1.2 ≥ base then
    let n := r1.2.tdiv base
    (r1.1 + n, r1.2 - n * base)
  else r1

/-- Library `daysSinceEpoch`: days from the absolute epoch to 1 January of
`year`. -/
def daysSinceEpoch (year : Int) : Nat :=
  let y := toUint64 (year - absoluteZeroYear)
  let n := y / 400
  let y := y - 400 * n
  let d := daysPer400Years * n
  let n := y / 100
  let y := y - 100 * n
  let d := d + daysPer100Years * n
  let n := y / 4
  let y := y - 4 * n
  let d := d + daysPer4Years * n
  let n := y
  d + 365 * n

/-- First part of library `time.Date`: normalisation of the fields and the
seconds `abs` from the absolute epoch to the wall-clock reading, together with
the normalised nanoseconds. -/
def dateToAbs (year month day hour min sec nsec : Int) : Nat × Int :=
  let m := month - 1
  let ym := norm year m 12
  let year := ym.1
  let month := ym.2 + 1
  let sn := norm sec nsec 1000000000
  let ms := norm min sn.1 60
  let hm := norm hour ms.1 60
  let dh := norm day hm.1 24
  let nsec := sn.2
  let sec := ms.2
  let min := hm.2
  let hour := dh.2
  let day := dh.1
  let d := daysSinceEpoch year
  let d := (d + daysBefore.getD (month - 1).toNat 0) % 2 ^ 64
  let d := if isLeap year && month ≥ 3 then (d + 1) % 2 ^ 64 else d
  let d := (d + toUint64 (day - 1)) % 2 ^ 64
  let abs := (d * secondsPerDay) % 2 ^ 64
  let abs := (abs + toUint64 (hour * secondsPerHour + min * secondsPerMinute + sec)) % 2 ^ 64
  (abs, nsec)

/-- Library `time.Date`: the wall-clock reading is first taken as a Unix time
`unix`; the offset of the zone period found for `unix` is subtracted, unless
the result falls outside that period, in which case the offset found for the
result is subtracted instead. -/
def Date (year month day hour min sec nsec : Int) (loc : Location) : Time :=
  let an := dateToAbs year month day hour min sec nsec
  let abs := an.1
  let nsec := an.2
  let unix := toInt64 (toInt64 abs + (absoluteToInternal + internalToUnix))
  let r := loc.lookup unix
  let offset := r.1
  let start := r.2.1
  let stop := r.2.2
  let unix :=
    if offset ≠ 0 then
      let utc := toInt64 (unix - offset)
      let offset := if utc < start ∨ utc ≥ stop then (loc.lookup utc).1 else offset
      toInt64 (unix - offset)
    else unix
  { sec := unix, nsec := nsec.toNat, loc := loc }

/-- Zero value `time.Time{}`: 1 January of year 1, 00:00:00 UTC. -/
def Time.zero : Time :=
  { sec := -62135596800, nsec := 0, loc := Location.UTC }

/-- Library `Time.abs`: the seconds from the absolute epoch to the wall-clock
reading of `t` in its location. -/
def Time.abs (t : Time) : Nat :=
  let sec := toInt64 (t.sec + (t.loc.lookup t.sec).1)
  toUint64 (toInt64 (sec + (unixToInternal + internalToAbsolute)))

/-- Library `absDate` with `full = false`: the year of the day containing
`abs` and the zero-based day within that year. -/
def absYearDay (abs : Nat) : Int × Nat :=
  let d := abs / secondsPerDay
  let n := d / daysPer400Years
  let y := 400 * n
  let d := d - daysPer400Years * n
  let n := d / daysPer100Years
  let n := n - n / 4
  let y := y + 100 * n
  let d := d - daysPer100Years * n
  let n := d / daysPer4Years
  let y := y + 4 * n
  let d := d - daysPer4Years * n
  let n := d / 365
  let n := n - n / 4
  let y := y + n
  let d := d - 365 * n
  ((y : Int) + absoluteZeroYear, d)

/-- Library `absDate` with `full = true`: year, month and day of month of the
day containing `abs`. -/
def absDate (abs : Nat) : Int × Int × Int :=
  let year := (absYearDay abs).1
  let day := (absYearDay abs).2
  if isLeap year && day == 31 + 29 - 1 then
    (year, 2, 29)
  else
    let day := if isLeap year && day > 31 + 29 - 1 then day - 1 else day
    let month := day / 31
    let stop := daysBefore.getD (month + 1) 0
    if day ≥ stop then
      (year, ((month + 1 + 1 : Nat) : Int), ((day - stop + 1 : Nat) : Int))
    else
      (year, ((month + 1 : Nat) : Int), ((day - daysBefore.getD month 0 + 1 : Nat) : Int))

def Time.Year (t : Time) : Int := (absDate t.abs).1
def Time.Month (t : Time) : Int := (absDate t.abs).2.1
def Time.Day (t : Time) : Int := (absDate t.abs).2.2
def Time.Hour (t : Time) : Int := ((t.abs % secondsPerDay / secondsPerHour : Nat) : Int)
def Time.Minute (t : Time) : Int := ((t.abs % secondsPerHour / secondsPerMinute : Nat) : Int)
def Time.Second (t : Time) : Int := ((t.abs % secondsPerMinute : Nat) : Int)
def Time.Nanosecond (t : Time) : Int := (t.nsec : Int)

/-- Days of month `month` of `year` in the Gregorian calendar (0 for a month
outside 1..12). -/
def daysIn (year month : Int) : Int :=
  if month = 2 then (if isLeap year then 29 else 28)
  else if month = 4 ∨ month = 6 ∨ month = 9 ∨ month = 11 then 30
  else if 1 ≤ month ∧ month ≤ 12 then 31
  else 0

/-! ## Response decoders -/

/-- Library `binary.BigEndian.Uint16`; `none` is the index-out-of-range panic
of its bounds check `_ = b[1]`. -/
def BigEndian.Uint16 (b : List Byte) : Option Nat :=
  if b.length ≤ 1 then none
  else some (((b.getD 1 0).val ||| ((b.getD 0 0).val <<< 8) % 2 ^ 16) % 2 ^ 16)

/-- Library `binary.BigEndian.Uint32`, bounds check `_ = b[3]`. -/
def BigEndian.Uint32 (b : List Byte) : Option Nat :=
  if b.length ≤ 3 then none
  else some (((b.getD 3 0).val ||| ((b.getD 2 0).val <<< 8) % 2 ^ 32
    ||| ((b.getD 1 0).val <<< 16) % 2 ^ 32 ||| ((b.getD 0 0).val <<< 24) % 2 ^ 32) % 2 ^ 32)

/-- Library `binary.BigEndian.Uint64`, bounds check `_ = b[7]`. -/
def BigEndian.Uint64 (b : List Byte) : Option Nat :=
  if b.length ≤ 7 then none
  else some (((b.getD 7 0).val ||| ((b.getD 6 0).val <<< 8) % 2 ^ 64
    ||| ((b.getD 5 0).val <<< 16) % 2 ^ 64 ||| ((b.getD 4 0).val <<< 24) % 2 ^ 64
    ||| ((b.getD 3 0).val <<< 32) % 2 ^ 64 ||| ((b.getD 2 0).val <<< 40) % 2 ^ 64
    ||| ((b.getD 1 0).val <<< 48) % 2 ^ 64 ||| ((b.getD 0 0).val <<< 56) % 2 ^ 64) % 2 ^ 64)

/-- Source: `SendCommandAndGetResponseAsString`. -/
def SendCommandAndGetResponseAsString {σ : Type} (S : Serial σ) (fuel : Nat) (s : State σ)
    (command : GoString) : Exec (GoString × Option Error) × State σ :=
  match SendCommandAndGetResponse S fuel s command with
  | (Exec.panic p, s1) => (Exec.panic p, s1)
  | (Exec.outOfFuel, s1) => (Exec.outOfFuel, s1)
  | (Exec.ret (_, some err), s1) => (Exec.ret ([], some err), s1)
  | (Exec.ret (responseAsByteArray, none), s1) =>
    if responseAsByteArray.length = 0 then (Exec.ret ([], none), s1)
    else (Exec.ret (responseAsByteArray, none), s1)

/-- Source: `SendCommandAndGetResponseAsDateTime`; `Local` is the value of
`time.Local`. -/
def SendCommandAndGetResponseAsDateTime {σ : Type} (S : Serial σ) (Local : Location)
    (fuel : Nat) (s : State σ) (command : GoString) : Exec (Time × Option Error) × State σ :=
  match SendCommandAndGetResponse S fuel s command with
  | (Exec.panic p, s1) => (Exec.panic p, s1)
  | (Exec.outOfFuel, s1) => (Exec.outOfFuel, s1)
  | (Exec.ret (_, some err), s1) => (Exec.ret (Time.zero, some err), s1)
  | (Exec.ret (responseAsByteArray, none), s1) =>
    if responseAsByteArray.length = 0 then (Exec.ret (Time.zero, none), s1)
    else if responseAsByteArray.length ≠ 7 then
      (Exec.ret (Time.zero,
        some (Error.invalidDateTimeLength responseAsByteArray.length)), s1)
    else
      let year : Int := 2000 + ((responseAsByteArray.getD 0 0).val : Int)
      let month : Int := ((responseAsByteArray.getD 1 0).val : Int)
      let day : Int := ((responseAsByteArray.getD 2 0).val : Int)
      let hour : Int := ((responseAsByteArray.getD 3 0).val : Int)
      let min : Int := ((responseAsByteArray.getD 4 0).val : Int)
      let sec : Int := ((responseAsByteArray.getD 5 0).val : Int)
      let result := Date year month day hour min sec 0 Local
      (Exec.ret (result, none), s1)

/-- Source: `SendCommandAndGetResponseAsUint16`. -/
def SendCommandAndGetResponseAsUint16 {σ : Type} (S : Serial σ) (fuel : Nat) (s : State σ)
    (command : GoString) : Exec (Nat × Option Error) × State σ :=
  match SendCommandAndGetResponse S fuel s command with
  | (Exec.panic p, s1) => (Exec.panic p, s1)
  | (Exec.outOfFuel, s1) => (Exec.outOfFuel, s1)
  | (Exec.ret (_, some err), s1) => (Exec.ret (0, some err), s1)
  | (Exec.ret (responseAsByteArray, none), s1) =>
    if responseAsByteArray.length = 0 then (Exec.ret (0, none), s1)
    else
      match BigEndian.Uint16 responseAsByteArray with
      | none => (Exec.panic Panic.indexOutOfRange, s1)
      | some v => (Exec.ret (v, none), s1)

/-- Source: `SendCommandAndGetResponseAsUint32`. -/
def SendCommandAndGetResponseAsUint32 {σ : Type} (S : Serial σ) (fuel : Nat) (s : State σ)
    (command : GoString) : Exec (Nat × Option Error) × State σ :=
  match SendCommandAndGetResponse S fuel s command with
  | (Exec.panic p, s1) => (Exec.panic p, s1)
  | (Exec.outOfFuel, s1) => (Exec.outOfFuel, s1)
  | (Exec.ret (_, some err), s1) => (Exec.ret (0, some err), s1)
  | (Exec.ret (responseAsByteArray, none), s1) =>
    if responseAsByteArray.length = 0 then (Exec.ret (0, none), s1)
    else
      match BigEndian.Uint32 responseAsByteArray with
      | none => (Exec.panic Panic.indexOutOfRange, s1)
      | some v => (Exec.ret (v, none), s1)

/-- Source: `SendCommandAndGetResponseAsUint64`. -/
def SendCommandAndGetResponseAsUint64 {σ : Type} (S : Serial σ) (fuel : Nat) (s : State σ)
    (command : GoString) : Exec (Nat × Option Error) × State σ :=
  match SendCommandAndGetResponse S fuel s command with
  | (Exec.panic p, s1) => (Exec.panic p, s1)
  | (Exec.outOfFuel, s1) => (Exec.outOfFuel, s1)
  | (Exec.ret (_, some err), s1) => (Exec.ret (0, some err), s1)
  | (Exec.ret (responseAsByteArray, none), s1) =>
    if responseAsByteArray.length = 0 then (Exec.ret (0, none), s1)
    else
      match BigEndian.Uint64 responseAsByteArray with
      | none => (Exec.panic Panic.indexOutOfRange, s1)
      | some v => (Exec.ret (v, none), s1)

/-! ## Named getters -/

/-- Source: `GetVer`. -/
def GetVer {σ : Type} (S : Serial σ) (fuel : Nat) (s : State σ) :
    Exec (GoString × Option Error) × State σ :=
  SendCommandAndGetResponseAsString S fuel s (constructCommand (lit "GETVER"))

/-- Source: `GetCpm`. -/
def GetCpm {σ : Type} (S : Serial σ) (fuel : Nat) (s : State σ) :
    Exec (Nat × Option Error) × State σ :=
  SendCommandAndGetResponseAsUint16 S fuel s (constructCommand (lit "GETCPM"))

/-- Source: `GetCpml`. -/
def GetCpml {σ : Type} (S : Serial σ) (fuel : Nat) (s : State σ) :
    Exec (Nat × Option Error) × State σ :=
  SendCommandAndGetResponseAsUint16 S fuel s (constructCommand (lit "GETCPML"))

/-- Source: `GetCpmh`. -/
def GetCpmh {σ : Type} (S : Serial σ) (fuel : Nat) (s : State σ) :
    Exec (Nat × Option Error) × State σ :=
  SendCommandAndGetResponseAsUint16 S fuel s (constructCommand (lit "GETCPMH"))

/-- Source: `GetCps`. -/
def GetCps {σ : Type} (S : Serial σ) (fuel : Nat) (s : State σ) :
    Exec (Nat × Option Error) × State σ :=
  SendCommandAndGetResponseAsUint16 S fuel s (constructCommand (lit "GETCPS"))

/-- Source: `GetCpsh`. -/
def GetCpsh {σ : Type} (S : Serial σ) (fuel : Nat) (s : State σ) :
    Exec (Nat × Option Error) × State σ :=
  SendCommandAndGetResponseAsUint16 S fuel s (constructCommand (lit "GETCPSH"))

/-- Source: `GetCpsl`. -/
def GetCpsl {σ : Type} (S : Serial σ) (fuel : Nat) (s : State σ) :
    Exec (Nat × Option Error) × State σ :=
  SendCommandAndGetResponseAsUint16 S fuel s (constructCommand (lit "GETCPSL"))

/-- Source: `GetCfg`. -/
def GetCfg {σ : Type} (S : Serial σ) (fuel : Nat) (s : State σ) :
    Exec (GoString × Option Error) × State σ :=
  SendCommandAndGetResponseAsString S fuel s (constructCommand (lit "GETCFG"))

/-- Source: `GetDateTime`; `Local` is the value of `time.Local`. -/
def GetDateTime {σ : Type} (S : Serial σ) (Local : Location) (fuel : Nat) (s : State σ) :
    Exec (Time × Option Error) × State σ :=
  SendCommandAndGetResponseAsDateTime S Local fuel s (constructCommand (lit "GETDATETIME"))

/-! ## A scripted transport

A concrete serial library used to evaluate the methods on explicit inputs. -/

/-- State of the scripted port.

* `short`: the counts reported by the next `Write` calls, with a nil error;
  once the script is used up a `Write` accepts all of its data.
* `writeErr`: when set, every `Write` reports it together with a zero count.
* `statusErr`: result of `GetModemStatusBits`.
* `reply`: the bytes a `Read` stores; the reported count is their number.
* `readErr`: error reported by `Read`.
* `closed`: set by `Close`; a closed port fails every later status query. -/
structure Stub where
  short : List Int
  writeErr : Option Error
  statusErr : Option Error
  reply : List Byte
  readErr : Option Error
  closed : Bool
  deriving DecidableEq, Repr

/-- A port that accepts every write and answers with `reply`. -/
def Stub.replying (reply : List Byte) : Stub :=
  { short := [], writeErr := none, statusErr := none, reply := reply, readErr := none,
    closed := false }

/-- The scripted serial library: `Open` succeeds with `dev` exactly for the
port name `/dev/ttyUSB0`. -/
def stubSerial (dev : Stub) : Serial Stub where
  Open := fun portName _ =>
    if portName = lit "/dev/ttyUSB0" then (some dev, none)
    else (none, some (Error.transport 2))
  Write := fun p data =>
    match p.writeErr with
    | some e => ((0, some e), p)
    | none =>
      match p.short with
      | [] => (((data.length : Int), none), p)
      | n :: rest => ((n, none), { p with short := rest })
  Read := fun p _ => ((p.reply, (p.reply.length : Int), p.readErr), p)
  GetModemStatusBits := fun p =>
    if p.closed then (some (Error.transport 9), p) else (p.statusErr, p)
  Close := fun p => (none, { p with closed := true })

/-- Configuration of the reference deployment (`cmd/connect-and-test.go`). -/
def referenceConfig : ConnectorConfig :=
  { UsbPort := lit "/dev/ttyUSB0", BaudRate := 57600, DataBits := 8, Parity := 0,
    StopBits := 0, ReadTimeout := 3, WriteTimeout := 3,
    WaitBetweenSendAndReceive := 500000000 }

/-- A connected session on port `p` with an empty trace. -/
def State.connected (p : Stub) : State Stub :=
  ⟨⟨referenceConfig, true, some p⟩, []⟩

/-- State after one complete exchange of `command` on the connected session
`State.connected p`, when the port is left in state `q`. -/
def State.exchanged (q : Stub) (command : GoString) : State Stub :=
  ⟨⟨referenceConfig, true, some q⟩,
    [Event.write command, Event.sleep 500000000, Event.status, Event.read 1024]⟩

/-- A port whose first `Write` accepts only 3 bytes, with a nil error, and
whose later `Write` calls accept everything they are given. -/
def Stub.shortWrite : Stub :=
  { short := [3], writeErr := none, statusErr := none, reply := [0x00, 0x0F], readErr := none,
    closed := false }

/-- The reference configuration with a port name that cannot be opened. -/
def unopenableConfig : ConnectorConfig :=
  { referenceConfig with UsbPort := lit "/dev/ttyUSB1" }

/-- The `serial.Mode` that `Connect` builds from the reference configuration. -/
def referenceMode : Mode :=
  { BaudRate := 57600, DataBits := 8, Parity := 0, StopBits := 0 }

/-- A fresh `Connector` after a successful `Connect`. -/
def State.afterConnect (dev : Stub) : State Stub :=
  (Connect (stubSerial dev) (State.fresh Stub) referenceConfig).2

/-- A `Connector` that was connected and whose next `Connect` failed. -/
def State.afterFailedReconnect (dev : Stub) : State Stub :=
  (Connect (stubSerial dev) (State.afterConnect dev) unopenableConfig).2

/-- A `Connector` after a successful `Connect` followed by `Disconnect`. -/
def State.afterDisconnect (dev : Stub) : State Stub :=
  (Disconnect (stubSerial dev) (State.afterConnect dev)).2

/-- A port whose every `Write` fails, reporting a zero count. -/
def Stub.failingWrite : Stub :=
  { short := [], writeErr := some (Error.transport 5), statusErr := none, reply := [0x00, 0x0F],
    readErr := none, closed := false }

/-- The scripted library with one change: `Write` reports the full count of
its data together with the error `transport 5`. -/
def lateErrorSerial (dev : Stub) : Serial Stub :=
  { stubSerial dev with
    Write := fun p data => (((data.length : Int), some (Error.transport 5)), p) }

/-- A port that accepts every write and whose `Read` fails with `transport 7`
while reporting the two bytes it stored. -/
def Stub.failingRead : Stub :=
  { short := [], writeErr := none, statusErr := none, reply := [0x00, 0x0F],
    readErr := some (Error.transport 7), closed := false }

/-- A port whose line-status query fails with `transport 6`. -/
def Stub.failingStatus : Stub :=
  { short := [], writeErr := none, statusErr := some (Error.transport 6),
    reply := [0x00, 0x0F], readErr := none, closed := false }

/-- An excerpt of the zone table of America/New_York: daylight time (UTC-4)
until 3 November 2024 06:00 UTC, standard time (UTC-5) until 9 March 2025
07:00 UTC, daylight time until 2 November 2025 06:00 UTC, then standard
time. -/
def newYork : Location :=
  { first := -14400,
    tx := [(1730613600, -18000), (1741503600, -14400), (1762063200, -18000)] }

/-! ## The decoders in the words of the specification

Second definitions, written from sections 4.3 and 4.4 of the specification
and not from the source, against which the named getters are compared. -/

/-- Specification 4.4: run the paired decoder on the response of the exchange,
or return the first error of the chain with the zero value of the type. -/
def specChain {σ α : Type} (exchange : Exec (List Byte × Option Error) × State σ) (zero : α)
    (decode : List Byte → Exec (α × Option Error)) : Exec (α × Option Error) × State σ :=
  match exchange with
  | (Exec.ret (response, none), s1) => (decode response, s1)
  | (Exec.ret (_, some err), s1) => (Exec.ret (zero, some err), s1)
  | (Exec.panic p, s1) => (Exec.panic p, s1)
  | (Exec.outOfFuel, s1) => (Exec.outOfFuel, s1)

/-- Specification 4.3, Text: the bytes verbatim (the empty text for the empty
response). -/
def specTextDecoder (response : List Byte) : Exec (GoString × Option Error) :=
  Exec.ret (response, none)

/-- Specification 4.3, UInt16: zero for the empty response, an out-of-range
failure for a single byte, else the big-endian value of the first two
bytes. -/
def specUint16Decoder : List Byte → Exec (Nat × Option Error)
  | [] => Exec.ret (0, none)
  | [_] => Exec.panic Panic.indexOutOfRange
  | b0 :: b1 :: _ => Exec.ret (256 * b0.val + b1.val, none)

/-- Specification 4.3, Timestamp, with the empty-response short-circuit: the
zero time for the empty response; for exactly 7 bytes the local time of year
`2000 + byte0`, month `byte1`, day `byte2`, hour `byte3`, minute `byte4`,
second `byte5`, `byte6` unused; for any other length the error reporting
expected length 7 and the actual length. -/
def specTimestampDecoder (Local : Location) : List Byte → Exec (Time × Option Error)
  | [] => Exec.ret (Time.zero, none)
  | [b0, b1, b2, b3, b4, b5, _] =>
    Exec.ret (Date (2000 + (b0.val : Int)) (b1.val : Int) (b2.val : Int) (b3.val : Int)
      (b4.val : Int) (b5.val : Int) 0 Local, none)
  | b0 :: rest =>
    Exec.ret (Time.zero, some (Error.invalidDateTimeLength (b0 :: rest).length))

/-! ## Theorems -/

set_option maxRecDepth 100000

set_option maxHeartbeats 4000000

/-! ### Shared lemmas -/

theorem lit_lt : lit "<" = [60] := by decide

theorem lit_gtgt : lit ">>" = [62, 62] := by decide

theorem bigEndian16_value (a b : Nat) (ha : a < 256) (hb : b < 256) :
    (b ||| (a <<< 8) % 2 ^ 16) % 2 ^ 16 = 256 * a + b := by
  have h1 : (a <<< 8) % 2 ^ 16 = 2 ^ 8 * a := by
    rw [Nat.shiftLeft_eq]; omega
  rw [h1, Nat.or_comm, ← Nat.mul_add_lt_is_or (by omega : b < 2 ^ 8)]
  omega

/-! ### Calendar lemmas -/

theorem norm_in_range (hi lo base : Int) (h0 : 0 ≤ lo) (h1 : lo < base) :
    norm hi lo base = (hi, lo) := by
  unfold norm
  simp [not_lt.mpr h0, not_le.mpr h1]

theorem isLeap_ofNat (y : Nat) :
    isLeap (y : Int) = (decide (y % 4 = 0) && (!decide (y % 100 = 0) || decide (y % 400 = 0))) := by
  unfold isLeap
  rw [Int.tmod_eq_emod (by omega) (by omega), Int.tmod_eq_emod (by omega) (by omega),
    Int.tmod_eq_emod (by omega) (by omega)]
  have h4 : ((y : Int) % 4 == 0) = decide (y % 4 = 0) := by
    rw [Bool.eq_iff_iff]; simp; omega
  have h100 : ((y : Int) % 100 != 0) = !decide (y % 100 = 0) := by
    rw [Bool.eq_iff_iff]; simp; omega
  have h400 : ((y : Int) % 400 == 0) = decide (y % 400 = 0) := by
    rw [Bool.eq_iff_iff]; simp; omega
  rw [h4, h100, h400]

theorem daysSinceEpoch_eq (y : Nat) (hy : y < 256) :
    daysSinceEpoch ((2000 + y : Nat) : Int)
      = 146097 * ((292277024399 + y) / 400) + 36524 * ((292277024399 + y) % 400 / 100)
        + 1461 * ((292277024399 + y) % 100 / 4) + 365 * ((292277024399 + y) % 4) := by
  have hu : toUint64 (((2000 + y : Nat) : Int) - absoluteZeroYear) = 292277024399 + y := by
    unfold toUint64 absoluteZeroYear
    omega
  unfold daysSinceEpoch
  simp only [hu, daysPer400Years, daysPer100Years, daysPer4Years]
  omega

theorem absYearDay_aux (A B C R yday tod : Nat) (hB : B ≤ 3) (hC : C ≤ 24) (hR : R ≤ 3)
    (htod : tod < 86400)
    (hyd : yday < 365 ∨ (yday = 365 ∧ R = 3 ∧ (C ≠ 24 ∨ B = 3))) :
    absYearDay ((146097 * A + 36524 * B + 1461 * C + 365 * R + yday) * 86400 + tod)
      = (((400 * A + 100 * B + 4 * C + R : Nat) : Int) + absoluteZeroYear, yday) := by
  have h0 : ((146097 * A + 36524 * B + 1461 * C + 365 * R + yday) * 86400 + tod) / 86400
      = 146097 * A + 36524 * B + 1461 * C + 365 * R + yday := by omega
  have h1 : (146097 * A + 36524 * B + 1461 * C + 365 * R + yday) / 146097 = A := by omega
  have h2 : 146097 * A + 36524 * B + 1461 * C + 365 * R + yday - 146097 * A
      = 36524 * B + 1461 * C + 365 * R + yday := by omega
  have h3 : (36524 * B + 1461 * C + 365 * R + yday) / 36524
      - (36524 * B + 1461 * C + 365 * R + yday) / 36524 / 4 = B := by
    have hx : 1461 * C + 365 * R + yday ≤ 36523 ∨ (B = 3 ∧ C = 24 ∧ R = 3 ∧ yday = 365) := by
      omega
    rcases hx with hx | ⟨rfl, rfl, rfl, rfl⟩
    · have hq : (36524 * B + 1461 * C + 365 * R + yday) / 36524 = B := by omega
      rw [hq]
      omega
    · rfl
  have h4 : 36524 * B + 1461 * C + 365 * R + yday - 36524 * B = 1461 * C + 365 * R + yday := by
    omega
  have h5 : (1461 * C + 365 * R + yday) / 1461 = C := by omega
  have h6 : 1461 * C + 365 * R + yday - 1461 * C = 365 * R + yday := by omega
  have h7 : (365 * R + yday) / 365 - (365 * R + yday) / 365 / 4 = R := by
    have hx : yday ≤ 364 ∨ (R = 3 ∧ yday = 365) := by omega
    rcases hx with hx | ⟨rfl, rfl⟩
    · have hq : (365 * R + yday) / 365 = R := by omega
      rw [hq]
      omega
    · rfl
  have h8 : 365 * R + yday - 365 * R = yday := by omega
  unfold absYearDay
  have e1 : secondsPerDay = 86400 := rfl
  have e2 : daysPer400Years = 146097 := rfl
  have e3 : daysPer100Years = 36524 := rfl
  have e4 : daysPer4Years = 1461 := rfl
  simp only [e1, e2, e3, e4, h0, h1, h2, h3, h4, h5, h6, h7, h8]

theorem absYearDay_eq (y yday tod : Nat) (hy : y < 256) (htod : tod < 86400)
    (hyd : yday < 365 ∨ (yday = 365 ∧ isLeap ((2000 + y : Nat) : Int) = true)) :
    absYearDay ((daysSinceEpoch ((2000 + y : Nat) : Int) + yday) * 86400 + tod)
      = (((2000 + y : Nat) : Int), yday) := by
  rw [daysSinceEpoch_eq y hy]
  have hl := isLeap_ofNat (2000 + y)
  have hyd2 : yday < 365 ∨ (yday = 365 ∧ (292277024399 + y) % 4 = 3
      ∧ ((292277024399 + y) % 100 / 4 ≠ 24 ∨ (292277024399 + y) % 400 / 100 = 3)) := by
    rcases hyd with h | ⟨h, h2⟩
    · exact Or.inl h
    · right
      rw [hl] at h2
      simp only [Bool.and_eq_true, Bool.or_eq_true, Bool.not_eq_true', decide_eq_true_eq,
        decide_eq_false_iff_not] at h2
      omega
  have h := absYearDay_aux ((292277024399 + y) / 400) ((292277024399 + y) % 400 / 100)
    ((292277024399 + y) % 100 / 4) ((292277024399 + y) % 4) yday tod (by omega) (by omega)
    (by omega) htod hyd2
  rw [h]
  unfold absoluteZeroYear
  simp only [Prod.mk.injEq, and_true]
  omega

theorem monthDay_quotient (leap : Bool) (m d q : Nat) (hm1 : 1 ≤ m) (hm2 : m ≤ 12)
    (hd1 : 1 ≤ d)
    (hd2 : (d : Int) ≤ (if (m : Int) = 2 then (if leap = true then 29 else 28)
      else if (m : Int) = 4 ∨ (m : Int) = 6 ∨ (m : Int) = 9 ∨ (m : Int) = 11 then 30
      else if 1 ≤ (m : Int) ∧ (m : Int) ≤ 12 then 31 else 0))
    (hq : q = (if (leap && decide (daysBefore.getD (m - 1) 0
        + (if (leap && decide (3 ≤ m)) = true then 1 else 0) + (d - 1) > 31 + 29 - 1)) = true
      then daysBefore.getD (m - 1) 0
        + (if (leap && decide (3 ≤ m)) = true then 1 else 0) + (d - 1) - 1
      else daysBefore.getD (m - 1) 0
        + (if (leap && decide (3 ≤ m)) = true then 1 else 0) + (d - 1)) / 31) :
    m - 2 ≤ q ∧ q ≤ m - 1 := by
  cases leap <;> interval_cases m <;> simp [daysBefore] at hd2 hq ⊢ <;>
    first
      | omega
      | (split_ifs at hq <;> omega)


theorem absDate_valid (y m d tod : Nat) (hy : y < 256) (hm1 : 1 ≤ m) (hm2 : m ≤ 12)
    (hd1 : 1 ≤ d) (hd2 : (d : Int) ≤ daysIn ((2000 + y : Nat) : Int) (m : Int))
    (htod : tod < 86400) :
    absDate ((daysSinceEpoch ((2000 + y : Nat) : Int) + (daysBefore.getD (m - 1) 0
        + (if (isLeap ((2000 + y : Nat) : Int) && decide (3 ≤ m)) = true then 1 else 0)
        + (d - 1))) * 86400 + tod)
      = (((2000 + y : Nat) : Int), (m : Int), (d : Int)) := by
  have hY : absYearDay ((daysSinceEpoch ((2000 + y : Nat) : Int) + (daysBefore.getD (m - 1) 0
        + (if (isLeap ((2000 + y : Nat) : Int) && decide (3 ≤ m)) = true then 1 else 0)
        + (d - 1))) * 86400 + tod)
      = (((2000 + y : Nat) : Int), daysBefore.getD (m - 1) 0
        + (if (isLeap ((2000 + y : Nat) : Int) && decide (3 ≤ m)) = true then 1 else 0)
        + (d - 1)) := by
    apply absYearDay_eq y _ tod hy htod
    cases hl : isLeap ((2000 + y : Nat) : Int) <;> interval_cases m <;>
      simp [daysIn, hl, daysBefore] at hd2 ⊢ <;> omega
  unfold absDate
  rw [hY]
  dsimp only
  unfold daysIn at hd2
  generalize isLeap ((2000 + y : Nat) : Int) = leap at hd2 ⊢
  obtain ⟨q, hq⟩ : ∃ q, q = (if (leap && decide (daysBefore.getD (m - 1) 0
        + (if (leap && decide (3 ≤ m)) = true then 1 else 0) + (d - 1) > 31 + 29 - 1)) = true
      then daysBefore.getD (m - 1) 0
        + (if (leap && decide (3 ≤ m)) = true then 1 else 0) + (d - 1) - 1
      else daysBefore.getD (m - 1) 0
        + (if (leap && decide (3 ≤ m)) = true then 1 else 0) + (d - 1)) / 31 := ⟨_, rfl⟩
  simp only [← hq]
  obtain ⟨hq1, hq2⟩ := monthDay_quotient leap m d q hm1 hm2 hd1 hd2 hq
  have hq3 : q = m - 2 ∨ q = m - 1 := by omega
  clear hq1 hq2
  clear hY
  cases leap <;> rcases hq3 with rfl | rfl <;> interval_cases m <;>
    simp [daysBefore] at hd2 hq ⊢ <;>
      first
        | omega
        | (split_ifs at hq ⊢ <;>
            first
              | omega
              | (simp; omega))

theorem daysSinceEpoch_lt (y : Nat) (hy : y < 256) :
    daysSinceEpoch ((2000 + y : Nat) : Int) < 106752000000000 := by
  rw [daysSinceEpoch_eq y hy]
  omega

theorem dateToAbs_valid (y m d hh mm ss : Nat) (hy : y < 256) (hm1 : 1 ≤ m)
    (hm2 : m ≤ 12) (hd1 : 1 ≤ d) (hd2 : d ≤ 31) (hh2 : hh < 24) (hmm : mm < 60) (hss : ss < 60) :
    dateToAbs (2000 + (y : Int)) (m : Int) (d : Int) (hh : Int) (mm : Int) (ss : Int) 0
      = ((daysSinceEpoch ((2000 + y : Nat) : Int) + (daysBefore.getD (m - 1) 0
            + (if (isLeap ((2000 + y : Nat) : Int) && decide (3 ≤ m)) = true then 1 else 0)
            + (d - 1))) * 86400 + (hh * 3600 + mm * 60 + ss), 0) := by
  have hD := daysSinceEpoch_lt y hy
  have hcast : (2000 + (y : Int)) = ((2000 + y : Nat) : Int) := by push_cast; rfl
  have hB : daysBefore.getD (m - 1) 0 ≤ 365 := by
    interval_cases m <;> simp [daysBefore]
  have h1 := norm_in_range ((2000 + y : Nat) : Int) ((m : Int) - 1) 12 (by omega) (by omega)
  have h2 := norm_in_range (ss : Int) 0 1000000000 (by omega) (by omega)
  have h3 := norm_in_range (mm : Int) (ss : Int) 60 (by omega) (by omega)
  have h4 := norm_in_range (hh : Int) (mm : Int) 60 (by omega) (by omega)
  have h5 := norm_in_range (d : Int) (hh : Int) 24 (by omega) (by omega)
  have hmi : ((m : Int) - 1 + 1 - 1).toNat = m - 1 := by omega
  have hge : decide ((m : Int) - 1 + 1 ≥ 3) = decide (3 ≤ m) := by
    rw [Bool.eq_iff_iff]; simp
  have hday : toUint64 ((d : Int) - 1) = d - 1 := by
    unfold toUint64; omega
  have htod : toUint64 ((hh : Int) * (secondsPerHour : Nat) + (mm : Int) * (secondsPerMinute : Nat)
      + (ss : Int)) = hh * 3600 + mm * 60 + ss := by
    unfold toUint64 secondsPerHour secondsPerMinute; omega
  rw [hcast]
  unfold dateToAbs
  dsimp only
  simp only [h2, h3, h4, h5, h1, hmi, hge, hday, htod]
  have e1 : secondsPerDay = 86400 := rfl
  rw [e1]
  congr 1
  split_ifs <;> omega

/-! ### Command framer -/

/-- C1: for every keyword `k`, the empty one and those containing `<` or `>`
included, `constructCommand k` is `"<"` followed by `k` unchanged followed by
`">>"`: byte 60, then `k`, then bytes 62 62; its length is `len(k) + 3`. -/
theorem constructCommand_frame (k : GoString) :
    constructCommand k = lit "<" ++ k ++ lit ">>"
      ∧ constructCommand k = (60 : Byte) :: (k ++ [62, 62])
      ∧ (constructCommand k).length = k.length + 3 := by
  refine ⟨rfl, ?_, ?_⟩
  · simp [constructCommand, lit_lt, lit_gtgt]
  · simp [constructCommand, lit_lt, lit_gtgt]

/-! ### Integer decoders -/

/-- C3: when the exchange delivers a response `b0 :: b1 :: rest` (length at
least 2), `SendCommandAndGetResponseAsUint16` returns `256 * b0 + b1` with a
nil error, whatever `rest` is. -/
theorem uint16_decodes_big_endian {σ : Type} (S : Serial σ) (fuel : Nat) (s s1 : State σ)
    (command : GoString) (b0 b1 : Byte) (rest : List Byte)
    (h : SendCommandAndGetResponse S fuel s command = (Exec.ret (b0 :: b1 :: rest, none), s1)) :
    SendCommandAndGetResponseAsUint16 S fuel s command
      = (Exec.ret (256 * b0.val + b1.val, none), s1) := by
  have hv := bigEndian16_value b0.val b1.val b0.isLt b1.isLt
  simp [SendCommandAndGetResponseAsUint16, h, BigEndian.Uint16]
  simpa using hv

/-- Witness of C3: a response starting `0x00, 0x0F` decodes to 15. -/
theorem uint16_decodes_big_endian_witness :
    SendCommandAndGetResponseAsUint16 (stubSerial (Stub.replying [0x00, 0x0F, 0x07, 0xFF])) 1
        (State.connected (Stub.replying [0x00, 0x0F, 0x07, 0xFF])) (lit "<GETCPM>>")
      = (Exec.ret (256 * 0 + 15, none),
          State.exchanged (Stub.replying [0x00, 0x0F, 0x07, 0xFF]) (lit "<GETCPM>>")) :=
  uint16_decodes_big_endian (stubSerial (Stub.replying [0x00, 0x0F, 0x07, 0xFF])) 1
    (State.connected (Stub.replying [0x00, 0x0F, 0x07, 0xFF]))
    (State.exchanged (Stub.replying [0x00, 0x0F, 0x07, 0xFF]) (lit "<GETCPM>>"))
    (lit "<GETCPM>>") 0x00 0x0F [0x07, 0xFF] (by decide)

/-! ### Timestamp decoder: length check -/

/-- C4, counterexample: the empty response has a length other than 7, yet the
Timestamp decoder returns the zero time with a nil error. -/
theorem dateTime_empty_response_no_error :
    SendCommandAndGetResponse (stubSerial (Stub.replying [])) 1
        (State.connected (Stub.replying [])) (lit "<GETDATETIME>>")
      = (Exec.ret ([], none), State.exchanged (Stub.replying []) (lit "<GETDATETIME>>"))
    ∧ ([] : List Byte).length ≠ 7
    ∧ SendCommandAndGetResponseAsDateTime (stubSerial (Stub.replying [])) Location.UTC 1
        (State.connected (Stub.replying [])) (lit "<GETDATETIME>>")
      = (Exec.ret (Time.zero, none),
          State.exchanged (Stub.replying []) (lit "<GETDATETIME>>")) := by
  decide

/-- C4, amended: when the exchange delivers a response whose length is neither
0 nor 7, `SendCommandAndGetResponseAsDateTime` returns the zero time together
with the error whose text reports the expected length 7 and the actual
length. -/
theorem dateTime_wrong_length_error {σ : Type} (S : Serial σ) (Local : Location) (fuel : Nat)
    (s s1 : State σ) (command : GoString) (b : List Byte)
    (h : SendCommandAndGetResponse S fuel s command = (Exec.ret (b, none), s1))
    (h0 : b.length ≠ 0) (h7 : b.length ≠ 7) :
    SendCommandAndGetResponseAsDateTime S Local fuel s command
        = (Exec.ret (Time.zero, some (Error.invalidDateTimeLength b.length)), s1)
      ∧ (Error.invalidDateTimeLength b.length).message
        = "invalid Date/Time response array length. Expected 7, got " ++ toString b.length := by
  refine ⟨?_, rfl⟩
  simp [SendCommandAndGetResponseAsDateTime, h, h0, h7]

/-- Witness of C4 (amended): a 3-byte response. -/
theorem dateTime_wrong_length_error_witness :
    SendCommandAndGetResponseAsDateTime (stubSerial (Stub.replying [1, 2, 3])) Location.UTC 1
        (State.connected (Stub.replying [1, 2, 3])) (lit "<GETDATETIME>>")
        = (Exec.ret (Time.zero, some (Error.invalidDateTimeLength 3)),
            State.exchanged (Stub.replying [1, 2, 3]) (lit "<GETDATETIME>>"))
      ∧ (Error.invalidDateTimeLength 3).message
        = "invalid Date/Time response array length. Expected 7, got " ++ toString 3 :=
  dateTime_wrong_length_error (stubSerial (Stub.replying [1, 2, 3])) Location.UTC 1
    (State.connected (Stub.replying [1, 2, 3]))
    (State.exchanged (Stub.replying [1, 2, 3]) (lit "<GETDATETIME>>"))
    (lit "<GETDATETIME>>") [1, 2, 3] (by decide) (by decide) (by decide)

/-! ### Empty response -/

/-- C5: when the exchange succeeds with an empty response, the Text decoder
returns the empty string and the UInt16, UInt32 and UInt64 decoders return 0,
each with a nil error and as a normal return: the fixed-width reads, which
would panic on the empty response, are not reached. -/
theorem empty_response_zero_values {σ : Type} (S : Serial σ) (fuel : Nat) (s s1 : State σ)
    (command : GoString) (b : List Byte)
    (h : SendCommandAndGetResponse S fuel s command = (Exec.ret (b, none), s1))
    (h0 : b.length = 0) :
    SendCommandAndGetResponseAsString S fuel s command = (Exec.ret ([], none), s1)
      ∧ SendCommandAndGetResponseAsUint16 S fuel s command = (Exec.ret (0, none), s1)
      ∧ SendCommandAndGetResponseAsUint32 S fuel s command = (Exec.ret (0, none), s1)
      ∧ SendCommandAndGetResponseAsUint64 S fuel s command = (Exec.ret (0, none), s1)
      ∧ BigEndian.Uint16 b = none ∧ BigEndian.Uint32 b = none
      ∧ BigEndian.Uint64 b = none := by
  simp [SendCommandAndGetResponseAsString, SendCommandAndGetResponseAsUint16,
    SendCommandAndGetResponseAsUint32, SendCommandAndGetResponseAsUint64, h, h0,
    BigEndian.Uint16, BigEndian.Uint32, BigEndian.Uint64]

/-- Witness of C5: a port whose read reports zero bytes. -/
theorem empty_response_zero_values_witness :
    SendCommandAndGetResponseAsString (stubSerial (Stub.replying [])) 1
        (State.connected (Stub.replying [])) (lit "<GETVER>>")
        = (Exec.ret ([], none), State.exchanged (Stub.replying []) (lit "<GETVER>>"))
      ∧ SendCommandAndGetResponseAsUint16 (stubSerial (Stub.replying [])) 1
        (State.connected (Stub.replying [])) (lit "<GETVER>>")
        = (Exec.ret (0, none), State.exchanged (Stub.replying []) (lit "<GETVER>>"))
      ∧ SendCommandAndGetResponseAsUint32 (stubSerial (Stub.replying [])) 1
        (State.connected (Stub.replying [])) (lit "<GETVER>>")
        = (Exec.ret (0, none), State.exchanged (Stub.replying []) (lit "<GETVER>>"))
      ∧ SendCommandAndGetResponseAsUint64 (stubSerial (Stub.replying [])) 1
        (State.connected (Stub.replying [])) (lit "<GETVER>>")
        = (Exec.ret (0, none), State.exchanged (Stub.replying []) (lit "<GETVER>>"))
      ∧ BigEndian.Uint16 [] = none ∧ BigEndian.Uint32 [] = none
      ∧ BigEndian.Uint64 [] = none :=
  empty_response_zero_values (stubSerial (Stub.replying [])) 1
    (State.connected (Stub.replying []))
    (State.exchanged (Stub.replying []) (lit "<GETVER>>"))
    (lit "<GETVER>>") [] (by decide) (by decide)

/-! ### Exchange engine -/

theorem WriteToPort.loop_stuck (startIdx endIdx : Int) (h : startIdx < endIdx) (fuel : Nat) :
    WriteToPort.loop startIdx endIdx none fuel = Exec.outOfFuel := by
  induction fuel with
  | zero => rfl
  | succ k ih => simp [WriteToPort.loop, h, ih]

theorem WriteToPort_ret {σ : Type} (S : Serial σ) (fuel : Nat) (s s1 : State σ)
    (data : List Byte) (r : Option Error)
    (h : WriteToPort S fuel s data = (Exec.ret r, s1)) :
    ∃ p, s.conn.port = some p
      ∧ s1 = { conn := { s.conn with port := some (S.Write p data).2 },
               trace := s.trace ++ [Event.write data] } := by
  unfold WriteToPort at h
  cases hp : s.conn.port with
  | none => simp [hp] at h
  | some p =>
    refine ⟨p, rfl, ?_⟩
    simp only [hp, List.take_length, List.drop_zero, Prod.mk.injEq] at h
    exact h.2.symm

theorem fillBuffer_length (buf stored : List Byte) :
    (fillBuffer buf stored).length = buf.length := by
  simp [fillBuffer]
  omega

theorem fillBuffer_take (buf stored : List Byte) (n : Nat) (h1 : n ≤ stored.length)
    (h2 : n ≤ buf.length) : (fillBuffer buf stored).take n = stored.take n := by
  simp [fillBuffer, List.take_take, Nat.min_eq_left h2, List.take_append_of_le_length h1]

theorem WriteToPort.loop_done (startIdx endIdx : Int) (err : Option Error)
    (h : endIdx ≤ startIdx) (fuel : Nat) :
    WriteToPort.loop startIdx endIdx err (fuel + 1) = Exec.ret none := by
  simp [WriteToPort.loop, not_lt.mpr h]

/-- C6: in a connected session in which the `Write` call accepts the whole
command, the line-status query succeeds and the one `Read` reports `n` bytes,
`0 ≤ n ≤ 1024`, with a nil error, `SendCommandAndGetResponse` returns (for
every fuel of at least 1) with a nil error the first `n` bytes of the read
buffer, in order: the response has length `n` (not 1024), it is the first `n`
bytes the transport stored when it stored at least `n`, and for `n = 0` it is
the empty response.  The effects are the write, the settle delay, the status
query and one read. -/
theorem exchange_returns_bytes_read {σ : Type} (S : Serial σ) (fuel : Nat) (s : State σ)
    (command : GoString) (p : σ) (stored : List Byte) (n : Int)
    (hopen : s.conn.isOpened = true)
    (hport : s.conn.port = some p)
    (hw : (command.length : Int) ≤ (S.Write p command).1.1)
    (hst : (S.GetModemStatusBits (S.Write p command).2).1 = none)
    (hr : (S.Read (S.GetModemStatusBits (S.Write p command).2).2 (List.replicate 1024 0)).1
      = (stored, n, none))
    (h0 : 0 ≤ n) (h1 : n ≤ 1024) :
    SendCommandAndGetResponse S (fuel + 1) s command
        = (Exec.ret ((fillBuffer (List.replicate 1024 0) stored).take n.toNat, none),
            { conn := { s.conn with
                port := some (S.Read (S.GetModemStatusBits (S.Write p command).2).2
                  (List.replicate 1024 0)).2 },
              trace := s.trace ++ [Event.write command,
                Event.sleep s.conn.config.WaitBetweenSendAndReceive, Event.status,
                Event.read 1024] })
      ∧ (((fillBuffer (List.replicate 1024 0) stored).take n.toNat).length : Int) = n
      ∧ (n.toNat ≤ stored.length →
          (fillBuffer (List.replicate 1024 0) stored).take n.toNat = stored.take n.toNat)
      ∧ (n = 0 → (fillBuffer (List.replicate 1024 0) stored).take n.toNat = []) := by
  have hwp : WriteToPort S (fuel + 1) s command
      = (Exec.ret none,
          { conn := { s.conn with port := some (S.Write p command).2 },
            trace := s.trace ++ [Event.write command] }) := by
    simp only [WriteToPort, hport, List.take_length, List.drop_zero]
    rw [WriteToPort.loop_done _ _ _ hw]
  have hr1 : (S.Read (S.GetModemStatusBits (S.Write p command).2).2
      (List.replicate 1024 0)).1.1 = stored := by rw [hr]
  have hr2 : (S.Read (S.GetModemStatusBits (S.Write p command).2).2
      (List.replicate 1024 0)).1.2.1 = n := by rw [hr]
  have hr3 : (S.Read (S.GetModemStatusBits (S.Write p command).2).2
      (List.replicate 1024 0)).1.2.2 = none := by rw [hr]
  have hn : ¬ (n < 0 ∨ 1024 < n) := by omega
  refine ⟨?_, ?_, ?_, ?_⟩
  · simp only [SendCommandAndGetResponse, hwp, ReadFromPort, hopen, hst, hr1, hr2, hr3, hn]
    simp
  · rw [List.length_take, fillBuffer_length, List.length_replicate]
    omega
  · intro hle
    exact fillBuffer_take _ _ _ hle (by rw [List.length_replicate]; omega)
  · intro hz
    simp [hz]

/-- Witness of C6: a port that answers a command with three bytes. -/
theorem exchange_returns_bytes_read_witness :
    SendCommandAndGetResponse (stubSerial (Stub.replying [7, 8, 9])) (0 + 1)
          (State.connected (Stub.replying [7, 8, 9])) (lit "<GETVER>>")
        = (Exec.ret ((fillBuffer (List.replicate 1024 0) [7, 8, 9]).take (3 : Int).toNat, none),
            { conn := { (State.connected (Stub.replying [7, 8, 9])).conn with
                port := some ((stubSerial (Stub.replying [7, 8, 9])).Read
                  ((stubSerial (Stub.replying [7, 8, 9])).GetModemStatusBits
                    ((stubSerial (Stub.replying [7, 8, 9])).Write (Stub.replying [7, 8, 9])
                      (lit "<GETVER>>")).2).2 (List.replicate 1024 0)).2 },
              trace := (State.connected (Stub.replying [7, 8, 9])).trace
                ++ [Event.write (lit "<GETVER>>"),
                Event.sleep
                  (State.connected (Stub.replying [7, 8, 9])).conn.config.WaitBetweenSendAndReceive,
                Event.status, Event.read 1024] })
      ∧ (((fillBuffer (List.replicate 1024 0) [7, 8, 9]).take (3 : Int).toNat).length : Int) = 3
      ∧ ((3 : Int).toNat ≤ ([7, 8, 9] : List Byte).length →
          (fillBuffer (List.replicate 1024 0) [7, 8, 9]).take (3 : Int).toNat
            = ([7, 8, 9] : List Byte).take (3 : Int).toNat)
      ∧ ((3 : Int) = 0 →
          (fillBuffer (List.replicate 1024 0) [7, 8, 9]).take (3 : Int).toNat = []) :=
  exchange_returns_bytes_read (stubSerial (Stub.replying [7, 8, 9])) 0
    (State.connected (Stub.replying [7, 8, 9]))
    (lit "<GETVER>>") (Stub.replying [7, 8, 9]) [7, 8, 9] 3
    (by decide) (by decide) (by decide) (by decide) (by decide) (by decide) (by decide)

theorem SendCommandAndGetResponse_nil_port {σ : Type} (S : Serial σ) (fuel : Nat) (s : State σ)
    (command : GoString) (h : s.conn.port = none) :
    SendCommandAndGetResponse S fuel s command = (Exec.panic Panic.nilDereference, s) := by
  simp [SendCommandAndGetResponse, WriteToPort, h]

/-- C7, the code at a failing input: on a port whose first `Write` accepts 3
of the 9 bytes of `<GETVER>>` with a nil error, `WriteToPort` never returns,
whatever the fuel, and the only `Write` it has issued is the first one, with
all 9 bytes; the suffix is never written and the exchange never reaches the
settle delay. -/
theorem writeToPort_short_write_never_returns (fuel : Nat) :
    WriteToPort (stubSerial Stub.shortWrite) fuel (State.connected Stub.shortWrite)
        (lit "<GETVER>>")
      = (Exec.outOfFuel,
          ⟨⟨referenceConfig, true, some { Stub.shortWrite with short := [] }⟩,
            [Event.write (lit "<GETVER>>")]⟩)
    ∧ SendCommandAndGetResponse (stubSerial Stub.shortWrite) fuel
        (State.connected Stub.shortWrite) (lit "<GETVER>>")
      = (Exec.outOfFuel,
          ⟨⟨referenceConfig, true, some { Stub.shortWrite with short := [] }⟩,
            [Event.write (lit "<GETVER>>")]⟩) := by
  have h : WriteToPort (stubSerial Stub.shortWrite) fuel (State.connected Stub.shortWrite)
        (lit "<GETVER>>")
      = (WriteToPort.loop 3 9 none fuel,
          ⟨⟨referenceConfig, true, some { Stub.shortWrite with short := [] }⟩,
            [Event.write (lit "<GETVER>>")]⟩) := rfl
  rw [WriteToPort.loop_stuck 3 9 (by decide)] at h
  exact ⟨h, by simp only [SendCommandAndGetResponse, h]⟩

/-! ### Lifecycle -/

/-- C8, the code at two failing inputs.  On a `Connector` that was never
connected every named getter panics on the nil port inside `WriteToPort`
instead of returning an error.  On a `Connector` whose latest `Connect`
failed after an earlier one succeeded (`isOpened = false`, port still set),
`GetVer` first issues the `Write` of `<GETVER>>` and the settle delay, and only
then fails in `ReadFromPort` with the error "port is not opened". -/
theorem getters_on_disconnected_connector {σ : Type} (S : Serial σ) (Local : Location)
    (fuel : Nat) :
    GetVer S fuel (State.fresh σ) = (Exec.panic Panic.nilDereference, State.fresh σ)
    ∧ GetCpm S fuel (State.fresh σ) = (Exec.panic Panic.nilDereference, State.fresh σ)
    ∧ GetCpml S fuel (State.fresh σ) = (Exec.panic Panic.nilDereference, State.fresh σ)
    ∧ GetCpmh S fuel (State.fresh σ) = (Exec.panic Panic.nilDereference, State.fresh σ)
    ∧ GetCps S fuel (State.fresh σ) = (Exec.panic Panic.nilDereference, State.fresh σ)
    ∧ GetCpsl S fuel (State.fresh σ) = (Exec.panic Panic.nilDereference, State.fresh σ)
    ∧ GetCpsh S fuel (State.fresh σ) = (Exec.panic Panic.nilDereference, State.fresh σ)
    ∧ GetCfg S fuel (State.fresh σ) = (Exec.panic Panic.nilDereference, State.fresh σ)
    ∧ GetDateTime S Local fuel (State.fresh σ)
      = (Exec.panic Panic.nilDereference, State.fresh σ)
    ∧ (State.afterFailedReconnect (Stub.replying [])).conn.isOpened = false
    ∧ GetVer (stubSerial (Stub.replying [])) 1 (State.afterFailedReconnect (Stub.replying []))
      = (Exec.ret ([], some Error.portNotOpened),
          ⟨⟨referenceConfig, false, some (Stub.replying [])⟩,
            [Event.openCall (lit "/dev/ttyUSB0") referenceMode,
             Event.openCall (lit "/dev/ttyUSB1") referenceMode,
             Event.write (lit "<GETVER>>"), Event.sleep 500000000]⟩) := by
  have hn : ∀ command, SendCommandAndGetResponse S fuel (State.fresh σ) command
      = (Exec.panic Panic.nilDereference, State.fresh σ) :=
    fun command => SendCommandAndGetResponse_nil_port S fuel _ command rfl
  refine ⟨?_, ?_, ?_, ?_, ?_, ?_, ?_, ?_, ?_, by decide, by decide⟩ <;>
    simp only [GetVer, GetCpm, GetCpml, GetCpmh, GetCps, GetCpsl, GetCpsh, GetCfg, GetDateTime,
      SendCommandAndGetResponseAsString, SendCommandAndGetResponseAsUint16,
      SendCommandAndGetResponseAsDateTime, hn]

/-- C9, the code at the failing input: `Disconnect` never changes `isOpened`.
After a successful `Connect` followed by `Disconnect` the flag is still true,
and `ReadFromPort` does not fail with "port is not opened": it issues the
line-status query on the closed port and returns the transport's error. -/
theorem disconnect_keeps_isOpened :
    (∀ (σ : Type) (S : Serial σ) (s : State σ),
        (Disconnect S s).2.conn.isOpened = s.conn.isOpened)
    ∧ (State.afterConnect (Stub.replying [])).conn.isOpened = true
    ∧ (State.afterDisconnect (Stub.replying [])).conn.isOpened = true
    ∧ (State.afterDisconnect (Stub.replying [])).conn.port
        = some { Stub.replying [] with closed := true }
    ∧ ReadFromPort (stubSerial (Stub.replying [])) (State.afterDisconnect (Stub.replying []))
      = (Exec.ret ([], some (Error.transport 9)),
          ⟨⟨referenceConfig, true, some { Stub.replying [] with closed := true }⟩,
            [Event.openCall (lit "/dev/ttyUSB0") referenceMode, Event.close, Event.status]⟩) := by
  refine ⟨?_, by decide, by decide, by decide, by decide⟩
  intro σ S s
  unfold Disconnect closePort
  cases s.conn.port <;> rfl

/-- C10: if `serial.Open` fails with error `e`, `Connect` returns exactly `e`,
sets `isOpened = false` and leaves the stored config and port as they were; if
it succeeds with port `port`, `Connect` returns nil, sets `isOpened = true`
and stores `port` and the given config.  Either way `serial.Open` was called
once, with the port name and the mode fields of the given config. -/
theorem Connect_result {σ : Type} (S : Serial σ) (s : State σ) (config : ConnectorConfig) :
    (∀ port e, S.Open config.UsbPort
          ⟨config.BaudRate, config.DataBits, config.Parity, config.StopBits⟩ = (port, some e) →
        Connect S s config
          = (Exec.ret (some e),
              ⟨⟨s.conn.config, false, s.conn.port⟩,
                s.trace ++ [Event.openCall config.UsbPort
                  ⟨config.BaudRate, config.DataBits, config.Parity, config.StopBits⟩]⟩))
    ∧ (∀ port, S.Open config.UsbPort
          ⟨config.BaudRate, config.DataBits, config.Parity, config.StopBits⟩ = (port, none) →
        Connect S s config
          = (Exec.ret none,
              ⟨⟨config, true, port⟩,
                s.trace ++ [Event.openCall config.UsbPort
                  ⟨config.BaudRate, config.DataBits, config.Parity, config.StopBits⟩]⟩)) := by
  constructor
  · intro port e h
    simp [Connect, openPort, h]
  · intro port h
    simp [Connect, openPort, h]

/-- Witness of C10: on the scripted library, `/dev/ttyUSB1` fails to open and
`/dev/ttyUSB0` opens. -/
theorem Connect_result_witness :
    Connect (stubSerial (Stub.replying [])) (State.fresh Stub) unopenableConfig
        = (Exec.ret (some (Error.transport 2)),
            ⟨⟨(State.fresh Stub).conn.config, false, (State.fresh Stub).conn.port⟩,
              (State.fresh Stub).trace ++ [Event.openCall unopenableConfig.UsbPort
                ⟨unopenableConfig.BaudRate, unopenableConfig.DataBits, unopenableConfig.Parity,
                  unopenableConfig.StopBits⟩]⟩)
    ∧ Connect (stubSerial (Stub.replying [])) (State.fresh Stub) referenceConfig
        = (Exec.ret none,
            ⟨⟨referenceConfig, true, some (Stub.replying [])⟩,
              (State.fresh Stub).trace ++ [Event.openCall referenceConfig.UsbPort
                ⟨referenceConfig.BaudRate, referenceConfig.DataBits, referenceConfig.Parity,
                  referenceConfig.StopBits⟩]⟩) :=
  ⟨(Connect_result (stubSerial (Stub.replying [])) (State.fresh Stub) unopenableConfig).1
      none (Error.transport 2) (by decide),
   (Connect_result (stubSerial (Stub.replying [])) (State.fresh Stub) referenceConfig).2
      (some (Stub.replying [])) (by decide)⟩

/-! ### Timestamp decoder: field decoding -/

theorem daysIn_le (year month : Int) : daysIn year month ≤ 31 := by
  unfold daysIn
  split_ifs <;> omega

theorem lookup_UTC (sec : Int) : Location.UTC.lookup sec = (0, zoneAlpha, zoneOmega) := rfl

theorem Date_UTC_sec (year month day hour min sec nsec : Int) :
    (Date year month day hour min sec nsec Location.UTC).sec
      = toInt64 (toInt64 (dateToAbs year month day hour min sec nsec).1
          + (absoluteToInternal + internalToUnix)) := by
  unfold Date
  simp [lookup_UTC]

theorem Date_abs_of_offset (year month day hour min sec nsec : Int) (loc : Location) (A : Nat)
    (hA : (dateToAbs year month day hour min sec nsec).1 = A)
    (hlt : A < 9223372800034560000)
    (hz : (loc.lookup (Date year month day hour min sec nsec loc).sec).1
      = (Date year month day hour min sec nsec Location.UTC).sec
        - (Date year month day hour min sec nsec loc).sec) :
    (Date year month day hour min sec nsec loc).abs = A := by
  have hloc : (Date year month day hour min sec nsec loc).loc = loc := rfl
  unfold Time.abs
  rw [hloc, hz, Date_UTC_sec, hA]
  generalize (Date year month day hour min sec nsec loc).sec = x
  simp only [toUint64, toInt64, absoluteToInternal, internalToUnix, unixToInternal,
    internalToAbsolute]
  omega

theorem Date_offset_fixed_zone (year month day hour min sec nsec : Int) (first : Int) (A : Nat)
    (hA : (dateToAbs year month day hour min sec nsec).1 = A)
    (hlt : A < 9223372800034560000)
    (hf1 : -86400 ≤ first) (hf2 : first ≤ 86400) :
    ((Location.mk first []).lookup
        (Date year month day hour min sec nsec (Location.mk first [])).sec).1
      = (Date year month day hour min sec nsec Location.UTC).sec
        - (Date year month day hour min sec nsec (Location.mk first [])).sec := by
  have hl : ∀ x, (Location.mk first []).lookup x = (first, zoneAlpha, zoneOmega) :=
    fun x => rfl
  have hsec : (Date year month day hour min sec nsec (Location.mk first [])).sec
      = toInt64 (toInt64 A + (absoluteToInternal + internalToUnix)) - first := by
    unfold Date
    simp only [hl, hA]
    split_ifs with h0 h1
    · simp only [toInt64, absoluteToInternal, internalToUnix, unixToInternal]
      omega
    · simp only [toInt64, absoluteToInternal, internalToUnix, unixToInternal]
      omega
    · simp only [ne_eq, not_not] at h0
      omega
  rw [hl, Date_UTC_sec, hA, hsec]
  omega

/-- C2, counterexample: in the zone of America/New_York the 7-byte response
`[25, 3, 9, 2, 30, 0, 0]` has valid fields (9 March 2025, 02:30:00), yet the
timestamp returned has hour 1, not 2: that wall-clock time is skipped by the
transition to daylight time, and `time.Date` moves it. -/
theorem dateTime_skipped_hour :
    SendCommandAndGetResponseAsDateTime (stubSerial (Stub.replying [25, 3, 9, 2, 30, 0, 0]))
        newYork 1 (State.connected (Stub.replying [25, 3, 9, 2, 30, 0, 0]))
        (lit "<GETDATETIME>>")
      = (Exec.ret (Date 2025 3 9 2 30 0 0 newYork, none),
          State.exchanged (Stub.replying [25, 3, 9, 2, 30, 0, 0]) (lit "<GETDATETIME>>"))
    ∧ (1 ≤ (3 : Byte).val ∧ (3 : Byte).val ≤ 12 ∧ 1 ≤ (9 : Byte).val
        ∧ (((9 : Byte).val : Nat) : Int) ≤ daysIn 2025 3
        ∧ (2 : Byte).val < 24 ∧ (30 : Byte).val < 60 ∧ (0 : Byte).val < 60)
    ∧ (Date 2025 3 9 2 30 0 0 newYork).Year = 2025
    ∧ (Date 2025 3 9 2 30 0 0 newYork).Month = 3
    ∧ (Date 2025 3 9 2 30 0 0 newYork).Day = 9
    ∧ (Date 2025 3 9 2 30 0 0 newYork).Hour = 1
    ∧ (Date 2025 3 9 2 30 0 0 newYork).Hour ≠ (((2 : Byte).val : Nat) : Int)
    ∧ (Date 2025 3 9 2 30 0 0 newYork).Minute = 30 := by
  decide

/-- C2, amended: when the exchange delivers a 7-byte response `b0 .. b6` whose
bytes 1..5 are a valid calendar date and time of the year `2000 + b0`,
`SendCommandAndGetResponseAsDateTime` returns a nil error and the time
`time.Date(2000+b0, b1, b2, b3, b4, b5, 0, time.Local)`, in which `b6` does
not occur and whose nanosecond is 0.  If the offset of the local zone in force
at that instant is the offset `time.Date` subtracted (the difference between
the wall-clock reading taken as UTC and the instant), then its year is
`2000 + b0`, its month `b1`, day `b2`, hour `b3`, minute `b4` and second
`b5`.  By `Date_offset_fixed_zone` the condition holds in every zone without
transitions. -/
theorem dateTime_decodes_fields {σ : Type} (S : Serial σ) (Local : Location) (fuel : Nat)
    (s s1 : State σ) (command : GoString) (b0 b1 b2 b3 b4 b5 b6 : Byte)
    (h : SendCommandAndGetResponse S fuel s command
      = (Exec.ret ([b0, b1, b2, b3, b4, b5, b6], none), s1))
    (hm1 : 1 ≤ b1.val) (hm2 : b1.val ≤ 12) (hd1 : 1 ≤ b2.val)
    (hd2 : (b2.val : Int) ≤ daysIn (2000 + (b0.val : Int)) (b1.val : Int))
    (hh : b3.val < 24) (hmin : b4.val < 60) (hsec : b5.val < 60)
    (hz : (Local.lookup (Date (2000 + (b0.val : Int)) (b1.val : Int) (b2.val : Int)
          (b3.val : Int) (b4.val : Int) (b5.val : Int) 0 Local).sec).1
      = (Date (2000 + (b0.val : Int)) (b1.val : Int) (b2.val : Int) (b3.val : Int)
          (b4.val : Int) (b5.val : Int) 0 Location.UTC).sec
        - (Date (2000 + (b0.val : Int)) (b1.val : Int) (b2.val : Int) (b3.val : Int)
          (b4.val : Int) (b5.val : Int) 0 Local).sec) :
    ∃ t : Time,
      SendCommandAndGetResponseAsDateTime S Local fuel s command = (Exec.ret (t, none), s1)
      ∧ t = Date (2000 + (b0.val : Int)) (b1.val : Int) (b2.val : Int) (b3.val : Int)
          (b4.val : Int) (b5.val : Int) 0 Local
      ∧ t.loc = Local
      ∧ t.Year = 2000 + (b0.val : Int) ∧ t.Month = (b1.val : Int) ∧ t.Day = (b2.val : Int)
      ∧ t.Hour = (b3.val : Int) ∧ t.Minute = (b4.val : Int) ∧ t.Second = (b5.val : Int)
      ∧ t.Nanosecond = 0 := by
  have hcast : (2000 + (b0.val : Int)) = ((2000 + b0.val : Nat) : Int) := by push_cast; rfl
  have hd31 : b2.val ≤ 31 := by
    have := daysIn_le (2000 + (b0.val : Int)) (b1.val : Int)
    omega
  have htod : b3.val * 3600 + b4.val * 60 + b5.val < 86400 := by omega
  have hD := dateToAbs_valid b0.val b1.val b2.val b3.val b4.val b5.val b0.isLt
    hm1 hm2 hd1 hd31 hh hmin hsec
  have hA := absDate_valid b0.val b1.val b2.val (b3.val * 3600 + b4.val * 60 + b5.val)
    b0.isLt hm1 hm2 hd1 (hcast ▸ hd2) htod
  have hB : daysBefore.getD (b1.val - 1) 0 ≤ 365 := by
    have h12 : b1.val ≤ 12 := hm2
    have h1 : 1 ≤ b1.val := hm1
    generalize b1.val = m at h12 h1 ⊢
    interval_cases m <;> simp [daysBefore]
  have hlt : (daysSinceEpoch ((2000 + b0.val : Nat) : Int) + (daysBefore.getD (b1.val - 1) 0
        + (if (isLeap ((2000 + b0.val : Nat) : Int) && decide (3 ≤ b1.val)) = true then 1 else 0)
        + (b2.val - 1))) * 86400 + (b3.val * 3600 + b4.val * 60 + b5.val)
      < 9223372800034560000 := by
    have := daysSinceEpoch_lt b0.val b0.isLt
    split_ifs <;> omega
  have habs := Date_abs_of_offset (2000 + (b0.val : Int)) (b1.val : Int) (b2.val : Int)
    (b3.val : Int) (b4.val : Int) (b5.val : Int) 0 Local _ (by rw [hD]) hlt hz
  refine ⟨_, ?_, rfl, rfl, ?_, ?_, ?_, ?_, ?_, ?_, ?_⟩
  · simp [SendCommandAndGetResponseAsDateTime, h]
  · unfold Time.Year; rw [habs, hA, hcast]
  · unfold Time.Month; rw [habs, hA]
  · unfold Time.Day; rw [habs, hA]
  · unfold Time.Hour secondsPerDay secondsPerHour secondsPerMinute
    rw [habs]
    omega
  · unfold Time.Minute secondsPerHour secondsPerMinute
    rw [habs]
    omega
  · unfold Time.Second secondsPerMinute
    rw [habs]
    omega
  · unfold Time.Nanosecond Date
    simp only [hD]
    rfl

/-- Witness of C2 (amended): in the zone of America/New_York the response
`[25, 3, 15, 10, 30, 45, 0]` decodes to 2025-03-15 10:30:45. -/
theorem dateTime_decodes_fields_witness :
    ∃ t : Time,
      SendCommandAndGetResponseAsDateTime (stubSerial (Stub.replying [25, 3, 15, 10, 30, 45, 0]))
          newYork 1
          (State.connected (Stub.replying [25, 3, 15, 10, 30, 45, 0])) (lit "<GETDATETIME>>")
        = (Exec.ret (t, none),
            State.exchanged (Stub.replying [25, 3, 15, 10, 30, 45, 0]) (lit "<GETDATETIME>>"))
      ∧ t = Date (2000 + (((25 : Byte).val : Nat) : Int)) (((3 : Byte).val : Nat) : Int)
          (((15 : Byte).val : Nat) : Int) (((10 : Byte).val : Nat) : Int)
          (((30 : Byte).val : Nat) : Int) (((45 : Byte).val : Nat) : Int) 0 newYork
      ∧ t.loc = newYork
      ∧ t.Year = 2000 + (((25 : Byte).val : Nat) : Int) ∧ t.Month = (((3 : Byte).val : Nat) : Int)
      ∧ t.Day = (((15 : Byte).val : Nat) : Int)
      ∧ t.Hour = (((10 : Byte).val : Nat) : Int) ∧ t.Minute = (((30 : Byte).val : Nat) : Int)
      ∧ t.Second = (((45 : Byte).val : Nat) : Int)
      ∧ t.Nanosecond = 0 :=
  dateTime_decodes_fields (stubSerial (Stub.replying [25, 3, 15, 10, 30, 45, 0])) newYork 1
    (State.connected (Stub.replying [25, 3, 15, 10, 30, 45, 0]))
    (State.exchanged (Stub.replying [25, 3, 15, 10, 30, 45, 0]) (lit "<GETDATETIME>>"))
    (lit "<GETDATETIME>>") 25 3 15 10 30 45 0
    (by decide) (by decide) (by decide) (by decide) (by decide) (by decide) (by decide)
    (by decide) (by decide)

/-! ### Write errors -/

/-- C11, the code at two failing inputs.  A `Write` that reports the error
`transport 5` together with the full count (here 9 of 9 bytes) makes
`WriteToPort` return nil, and `SendCommandAndGetResponse` goes on to sleep, to
query the line status and to read, returning the response with a nil error.
The same happens for the empty command on a port whose `Write` fails with a
zero count.  For comparison, the same failing port with the 9-byte command
gets the error back and nothing after the write is issued. -/
theorem write_error_with_full_count_is_dropped :
    WriteToPort (lateErrorSerial (Stub.replying [0x00, 0x0F])) 1
        (State.connected (Stub.replying [0x00, 0x0F])) (lit "<GETCPM>>")
      = (Exec.ret none,
          ⟨⟨referenceConfig, true, some (Stub.replying [0x00, 0x0F])⟩,
            [Event.write (lit "<GETCPM>>")]⟩)
    ∧ SendCommandAndGetResponse (lateErrorSerial (Stub.replying [0x00, 0x0F])) 1
        (State.connected (Stub.replying [0x00, 0x0F])) (lit "<GETCPM>>")
      = (Exec.ret ([0x00, 0x0F], none),
          State.exchanged (Stub.replying [0x00, 0x0F]) (lit "<GETCPM>>"))
    ∧ WriteToPort (stubSerial Stub.failingWrite) 1 (State.connected Stub.failingWrite) []
      = (Exec.ret none, ⟨⟨referenceConfig, true, some Stub.failingWrite⟩, [Event.write []]⟩)
    ∧ SendCommandAndGetResponse (stubSerial Stub.failingWrite) 1
        (State.connected Stub.failingWrite) []
      = (Exec.ret ([0x00, 0x0F], none), State.exchanged Stub.failingWrite [])
    ∧ SendCommandAndGetResponse (stubSerial Stub.failingWrite) 1
        (State.connected Stub.failingWrite) (lit "<GETCPM>>")
      = (Exec.ret ([], some (Error.transport 5)),
          ⟨⟨referenceConfig, true, some Stub.failingWrite⟩, [Event.write (lit "<GETCPM>>")]⟩) := by
  decide

/-! ### Named getters -/

theorem specChain_state {σ α : Type} (exchange : Exec (List Byte × Option Error) × State σ)
    (zero : α) (decode : List Byte → Exec (α × Option Error)) :
    (specChain exchange zero decode).2 = exchange.2 := by
  rcases exchange with ⟨r, s1⟩
  cases r with
  | ret v =>
    rcases v with ⟨b, err⟩
    cases err <;> rfl
  | panic q => rfl
  | outOfFuel => rfl

theorem string_decoder_chain {σ : Type} (S : Serial σ) (fuel : Nat) (s : State σ)
    (command : GoString) :
    SendCommandAndGetResponseAsString S fuel s command
      = specChain (SendCommandAndGetResponse S fuel s command) [] specTextDecoder := by
  unfold SendCommandAndGetResponseAsString
  rcases SendCommandAndGetResponse S fuel s command with ⟨r, s1⟩
  cases r with
  | ret v =>
    rcases v with ⟨b, err⟩
    cases err with
    | some e => rfl
    | none =>
      cases b with
      | nil => rfl
      | cons b0 rest => simp [specChain, specTextDecoder]
  | panic q => rfl
  | outOfFuel => rfl

theorem uint16_decoder_chain {σ : Type} (S : Serial σ) (fuel : Nat) (s : State σ)
    (command : GoString) :
    SendCommandAndGetResponseAsUint16 S fuel s command
      = specChain (SendCommandAndGetResponse S fuel s command) 0 specUint16Decoder := by
  unfold SendCommandAndGetResponseAsUint16
  rcases SendCommandAndGetResponse S fuel s command with ⟨r, s1⟩
  cases r with
  | ret v =>
    rcases v with ⟨b, err⟩
    cases err with
    | some e => rfl
    | none =>
      rcases b with _ | ⟨b0, _ | ⟨b1, rest⟩⟩
      · rfl
      · simp [specChain, specUint16Decoder, BigEndian.Uint16]
      · have hv := bigEndian16_value b0.val b1.val b0.isLt b1.isLt
        simp [specChain, specUint16Decoder, BigEndian.Uint16]
        simpa using hv
  | panic q => rfl
  | outOfFuel => rfl

theorem dateTime_decoder_chain {σ : Type} (S : Serial σ) (Local : Location) (fuel : Nat)
    (s : State σ) (command : GoString) :
    SendCommandAndGetResponseAsDateTime S Local fuel s command
      = specChain (SendCommandAndGetResponse S fuel s command) Time.zero
          (specTimestampDecoder Local) := by
  unfold SendCommandAndGetResponseAsDateTime
  rcases SendCommandAndGetResponse S fuel s command with ⟨r, s1⟩
  cases r with
  | ret v =>
    rcases v with ⟨b, err⟩
    cases err with
    | some e => rfl
    | none =>
      rcases b with _ | ⟨b0, _ | ⟨b1, _ | ⟨b2, _ | ⟨b3, _ | ⟨b4, _ | ⟨b5, _ | ⟨b6, _ | ⟨b7, rest⟩⟩⟩⟩⟩⟩⟩⟩
        <;> simp [specChain, specTimestampDecoder]
  | panic q => rfl
  | outOfFuel => rfl

theorem ReadFromPort_trace {σ : Type} (S : Serial σ) (s : State σ) :
    ∃ rest, (ReadFromPort S s).2.trace = s.trace ++ rest := by
  unfold ReadFromPort
  cases hopen : s.conn.isOpened with
  | false => exact ⟨[], by simp⟩
  | true =>
    cases hp : s.conn.port with
    | none => exact ⟨[], by simp⟩
    | some p =>
      simp only [Bool.not_true, Bool.false_eq_true, if_false]
      split_ifs
      · exact ⟨[Event.status], rfl⟩
      · exact ⟨[Event.status, Event.read 1024], by simp⟩
      · exact ⟨[Event.status, Event.read 1024], by simp⟩
      · exact ⟨[Event.status, Event.read 1024], by simp⟩

theorem exchange_first_write {σ : Type} (S : Serial σ) (fuel : Nat) (s : State σ)
    (command : GoString) (p : σ) (hport : s.conn.port = some p) :
    ∃ rest, (SendCommandAndGetResponse S fuel s command).2.trace
      = s.trace ++ Event.write command :: rest := by
  have hW : WriteToPort S fuel s command
      = (WriteToPort.loop (S.Write p command).1.1 (command.length : Int)
            (S.Write p command).1.2 fuel,
          { conn := { s.conn with port := some (S.Write p command).2 },
            trace := s.trace ++ [Event.write command] }) := by
    simp only [WriteToPort, hport, List.take_length, List.drop_zero]
  unfold SendCommandAndGetResponse
  rw [hW]
  cases WriteToPort.loop (S.Write p command).1.1 (command.length : Int)
      (S.Write p command).1.2 fuel with
  | panic q => exact ⟨[], by simp⟩
  | outOfFuel => exact ⟨[], by simp⟩
  | ret v =>
    cases v with
    | some err => exact ⟨[], by simp⟩
    | none =>
      simp only
      obtain ⟨rest, hrest⟩ := ReadFromPort_trace S
        { conn := { s.conn with port := some (S.Write p command).2 },
          trace := s.trace ++ [Event.write command]
            ++ [Event.sleep s.conn.config.WaitBetweenSendAndReceive] }
      rcases hr : ReadFromPort S
        { conn := { s.conn with port := some (S.Write p command).2 },
          trace := s.trace ++ [Event.write command]
            ++ [Event.sleep s.conn.config.WaitBetweenSendAndReceive] } with ⟨r2, sr⟩
      rw [hr] at hrest
      have htr : sr.trace = s.trace ++ Event.write command
          :: (Event.sleep s.conn.config.WaitBetweenSendAndReceive :: rest) := by
        simpa using hrest
      cases r2 with
      | panic q => exact ⟨_, htr⟩
      | outOfFuel => exact ⟨_, htr⟩
      | ret v2 =>
        rcases v2 with ⟨resp, err2⟩
        cases err2 with
        | some err => exact ⟨_, htr⟩
        | none => exact ⟨_, htr⟩

/-- C12: each named getter is the pairing of its own keyword with its decoder.
Its result and final state are those of the chain of the specification: the
exchange of the wire form of the keyword, then the paired decoder applied to
the response (or the first error of the chain with the zero value).  The wire
forms are `<GETVER>>` and `<GETCFG>>` with the Text decoder, `<GETCPM>>`,
`<GETCPML>>`, `<GETCPMH>>`, `<GETCPS>>`, `<GETCPSL>>`, `<GETCPSH>>` with the
UInt16 decoder and `<GETDATETIME>>` with the Timestamp decoder.  On a
`Connector` with a port, the first effect of each getter is the `Write` of
exactly these bytes. -/
theorem getters_pair_keyword_with_decoder {σ : Type} (S : Serial σ) (Local : Location)
    (fuel : Nat) (s : State σ) :
    (GetVer S fuel s
        = specChain (SendCommandAndGetResponse S fuel s (lit "<GETVER>>")) [] specTextDecoder
      ∧ GetCfg S fuel s
        = specChain (SendCommandAndGetResponse S fuel s (lit "<GETCFG>>")) [] specTextDecoder
      ∧ GetCpm S fuel s
        = specChain (SendCommandAndGetResponse S fuel s (lit "<GETCPM>>")) 0 specUint16Decoder
      ∧ GetCpml S fuel s
        = specChain (SendCommandAndGetResponse S fuel s (lit "<GETCPML>>")) 0 specUint16Decoder
      ∧ GetCpmh S fuel s
        = specChain (SendCommandAndGetResponse S fuel s (lit "<GETCPMH>>")) 0 specUint16Decoder
      ∧ GetCps S fuel s
        = specChain (SendCommandAndGetResponse S fuel s (lit "<GETCPS>>")) 0 specUint16Decoder
      ∧ GetCpsl S fuel s
        = specChain (SendCommandAndGetResponse S fuel s (lit "<GETCPSL>>")) 0 specUint16Decoder
      ∧ GetCpsh S fuel s
        = specChain (SendCommandAndGetResponse S fuel s (lit "<GETCPSH>>")) 0 specUint16Decoder
      ∧ GetDateTime S Local fuel s
        = specChain (SendCommandAndGetResponse S fuel s (lit "<GETDATETIME>>")) Time.zero (specTimestampDecoder Local))
    ∧ (∀ p, s.conn.port = some p →
        (∃ rest, (GetVer S fuel s).2.trace
            = s.trace ++ Event.write (lit "<GETVER>>") :: rest)
        ∧ (∃ rest, (GetCfg S fuel s).2.trace
            = s.trace ++ Event.write (lit "<GETCFG>>") :: rest)
        ∧ (∃ rest, (GetCpm S fuel s).2.trace
            = s.trace ++ Event.write (lit "<GETCPM>>") :: rest)
        ∧ (∃ rest, (GetCpml S fuel s).2.trace
            = s.trace ++ Event.write (lit "<GETCPML>>") :: rest)
        ∧ (∃ rest, (GetCpmh S fuel s).2.trace
            = s.trace ++ Event.write (lit "<GETCPMH>>") :: rest)
        ∧ (∃ rest, (GetCps S fuel s).2.trace
            = s.trace ++ Event.write (lit "<GETCPS>>") :: rest)
        ∧ (∃ rest, (GetCpsl S fuel s).2.trace
            = s.trace ++ Event.write (lit "<GETCPSL>>") :: rest)
        ∧ (∃ rest, (GetCpsh S fuel s).2.trace
            = s.trace ++ Event.write (lit "<GETCPSH>>") :: rest)
        ∧ (∃ rest, (GetDateTime S Local fuel s).2.trace
            = s.trace ++ Event.write (lit "<GETDATETIME>>") :: rest)) := by
  have h1 : constructCommand (lit "GETVER") = lit "<GETVER>>" := by decide
  have h2 : constructCommand (lit "GETCFG") = lit "<GETCFG>>" := by decide
  have h3 : constructCommand (lit "GETCPM") = lit "<GETCPM>>" := by decide
  have h4 : constructCommand (lit "GETCPML") = lit "<GETCPML>>" := by decide
  have h5 : constructCommand (lit "GETCPMH") = lit "<GETCPMH>>" := by decide
  have h6 : constructCommand (lit "GETCPS") = lit "<GETCPS>>" := by decide
  have h7 : constructCommand (lit "GETCPSL") = lit "<GETCPSL>>" := by decide
  have h8 : constructCommand (lit "GETCPSH") = lit "<GETCPSH>>" := by decide
  have h9 : constructCommand (lit "GETDATETIME") = lit "<GETDATETIME>>" := by decide
  have hE : GetVer S fuel s
        = specChain (SendCommandAndGetResponse S fuel s (lit "<GETVER>>")) [] specTextDecoder
      ∧ GetCfg S fuel s
        = specChain (SendCommandAndGetResponse S fuel s (lit "<GETCFG>>")) [] specTextDecoder
      ∧ GetCpm S fuel s
        = specChain (SendCommandAndGetResponse S fuel s (lit "<GETCPM>>")) 0 specUint16Decoder
      ∧ GetCpml S fuel s
        = specChain (SendCommandAndGetResponse S fuel s (lit "<GETCPML>>")) 0 specUint16Decoder
      ∧ GetCpmh S fuel s
        = specChain (SendCommandAndGetResponse S fuel s (lit "<GETCPMH>>")) 0 specUint16Decoder
      ∧ GetCps S fuel s
        = specChain (SendCommandAndGetResponse S fuel s (lit "<GETCPS>>")) 0 specUint16Decoder
      ∧ GetCpsl S fuel s
        = specChain (SendCommandAndGetResponse S fuel s (lit "<GETCPSL>>")) 0 specUint16Decoder
      ∧ GetCpsh S fuel s
        = specChain (SendCommandAndGetResponse S fuel s (lit "<GETCPSH>>")) 0 specUint16Decoder
      ∧ GetDateTime S Local fuel s
        = specChain (SendCommandAndGetResponse S fuel s (lit "<GETDATETIME>>")) Time.zero (specTimestampDecoder Local) := by
    simp only [GetVer, GetCfg, GetCpm, GetCpml, GetCpmh, GetCps, GetCpsl, GetCpsh, GetDateTime,
      h1, h2, h3, h4, h5, h6, h7, h8, h9, string_decoder_chain, uint16_decoder_chain,
      dateTime_decoder_chain, and_self]
  refine ⟨hE, ?_⟩
  intro p hport
  obtain ⟨e1, e2, e3, e4, e5, e6, e7, e8, e9⟩ := hE
  rw [e1, e2, e3, e4, e5, e6, e7, e8, e9]
  simp only [specChain_state]
  exact ⟨exchange_first_write S fuel s _ p hport, exchange_first_write S fuel s _ p hport,
    exchange_first_write S fuel s _ p hport, exchange_first_write S fuel s _ p hport,
    exchange_first_write S fuel s _ p hport, exchange_first_write S fuel s _ p hport,
    exchange_first_write S fuel s _ p hport, exchange_first_write S fuel s _ p hport,
    exchange_first_write S fuel s _ p hport⟩

/-- Witness of C12: on a port that answers every command with the bytes
`GMC`, `GetVer` returns the text `GMC`, `GetCpm` returns `256 * 71 + 77`, and
each getter first writes the wire form of its own keyword. -/
theorem getters_pair_keyword_with_decoder_witness :
    GetVer (stubSerial (Stub.replying [71, 77, 67])) 1 (State.connected (Stub.replying [71, 77, 67]))
      = (Exec.ret ([71, 77, 67], none),
          State.exchanged (Stub.replying [71, 77, 67]) (lit "<GETVER>>"))
    ∧ GetCpm (stubSerial (Stub.replying [71, 77, 67])) 1 (State.connected (Stub.replying [71, 77, 67]))
      = (Exec.ret (256 * 71 + 77, none),
          State.exchanged (Stub.replying [71, 77, 67]) (lit "<GETCPM>>"))
    ∧ ((∃ rest, (GetVer (stubSerial (Stub.replying [71, 77, 67])) 1 (State.connected (Stub.replying [71, 77, 67]))).2.trace
          = (State.connected (Stub.replying [71, 77, 67])).trace
            ++ Event.write (lit "<GETVER>>") :: rest)
      ∧ (∃ rest, (GetCfg (stubSerial (Stub.replying [71, 77, 67])) 1 (State.connected (Stub.replying [71, 77, 67]))).2.trace
          = (State.connected (Stub.replying [71, 77, 67])).trace
            ++ Event.write (lit "<GETCFG>>") :: rest)
      ∧ (∃ rest, (GetCpm (stubSerial (Stub.replying [71, 77, 67])) 1 (State.connected (Stub.replying [71, 77, 67]))).2.trace
          = (State.connected (Stub.replying [71, 77, 67])).trace
            ++ Event.write (lit "<GETCPM>>") :: rest)
      ∧ (∃ rest, (GetCpml (stubSerial (Stub.replying [71, 77, 67])) 1 (State.connected (Stub.replying [71, 77, 67]))).2.trace
          = (State.connected (Stub.replying [71, 77, 67])).trace
            ++ Event.write (lit "<GETCPML>>") :: rest)
      ∧ (∃ rest, (GetCpmh (stubSerial (Stub.replying [71, 77, 67])) 1 (State.connected (Stub.replying [71, 77, 67]))).2.trace
          = (State.connected (Stub.replying [71, 77, 67])).trace
            ++ Event.write (lit "<GETCPMH>>") :: rest)
      ∧ (∃ rest, (GetCps (stubSerial (Stub.replying [71, 77, 67])) 1 (State.connected (Stub.replying [71, 77, 67]))).2.trace
          = (State.connected (Stub.replying [71, 77, 67])).trace
            ++ Event.write (lit "<GETCPS>>") :: rest)
      ∧ (∃ rest, (GetCpsl (stubSerial (Stub.replying [71, 77, 67])) 1 (State.connected (Stub.replying [71, 77, 67]))).2.trace
          = (State.connected (Stub.replying [71, 77, 67])).trace
            ++ Event.write (lit "<GETCPSL>>") :: rest)
      ∧ (∃ rest, (GetCpsh (stubSerial (Stub.replying [71, 77, 67])) 1 (State.connected (Stub.replying [71, 77, 67]))).2.trace
          = (State.connected (Stub.replying [71, 77, 67])).trace
            ++ Event.write (lit "<GETCPSH>>") :: rest)
      ∧ (∃ rest, (GetDateTime (stubSerial (Stub.replying [71, 77, 67])) newYork 1 (State.connected (Stub.replying [71, 77, 67]))).2.trace
          = (State.connected (Stub.replying [71, 77, 67])).trace
            ++ Event.write (lit "<GETDATETIME>>") :: rest)) :=
  ⟨(getters_pair_keyword_with_decoder (stubSerial (Stub.replying [71, 77, 67])) newYork 1 (State.connected (Stub.replying [71, 77, 67]))).1.1.trans (by decide),
   (getters_pair_keyword_with_decoder (stubSerial (Stub.replying [71, 77, 67])) newYork 1 (State.connected (Stub.replying [71, 77, 67]))).1.2.2.1.trans (by decide),
   (getters_pair_keyword_with_decoder (stubSerial (Stub.replying [71, 77, 67])) newYork 1 (State.connected (Stub.replying [71, 77, 67]))).2 (Stub.replying [71, 77, 67])
      (by decide)⟩

/-! ### Wider integer decoders -/

theorem or_shift_step (x a i w : Nat) (hx : x < 2 ^ i) (ha : a < 256) (hw : i + 8 ≤ w) :
    x ||| (a <<< i) % 2 ^ w = 2 ^ i * a + x := by
  have h1 : a <<< i < 2 ^ w := by
    rw [Nat.shiftLeft_eq]
    calc a * 2 ^ i < 256 * 2 ^ i := Nat.mul_lt_mul_of_pos_right ha (Nat.two_pow_pos i)
      _ = 2 ^ (i + 8) := by rw [Nat.pow_add]; omega
      _ ≤ 2 ^ w := Nat.pow_le_pow_right (by omega) hw
  rw [Nat.mod_eq_of_lt h1, Nat.shiftLeft_eq, Nat.or_comm, Nat.mul_comm a,
    ← Nat.mul_add_lt_is_or hx]

theorem bigEndian32_value (b0 b1 b2 b3 : Nat) (h0 : b0 < 256) (h1 : b1 < 256) (h2 : b2 < 256)
    (h3 : b3 < 256) :
    (b3 ||| (b2 <<< 8) % 2 ^ 32 ||| (b1 <<< 16) % 2 ^ 32 ||| (b0 <<< 24) % 2 ^ 32) % 2 ^ 32
      = b0 * 256 ^ 3 + b1 * 256 ^ 2 + b2 * 256 + b3 := by
  rw [or_shift_step b3 b2 8 32 (by omega) h2 (by omega),
    or_shift_step _ b1 16 32 (by omega) h1 (by omega),
    or_shift_step _ b0 24 32 (by omega) h0 (by omega)]
  omega

theorem bigEndian64_value (b0 b1 b2 b3 b4 b5 b6 b7 : Nat) (h0 : b0 < 256) (h1 : b1 < 256)
    (h2 : b2 < 256) (h3 : b3 < 256) (h4 : b4 < 256) (h5 : b5 < 256) (h6 : b6 < 256)
    (h7 : b7 < 256) :
    (b7 ||| (b6 <<< 8) % 2 ^ 64 ||| (b5 <<< 16) % 2 ^ 64 ||| (b4 <<< 24) % 2 ^ 64
      ||| (b3 <<< 32) % 2 ^ 64 ||| (b2 <<< 40) % 2 ^ 64 ||| (b1 <<< 48) % 2 ^ 64
      ||| (b0 <<< 56) % 2 ^ 64) % 2 ^ 64
      = b0 * 256 ^ 7 + b1 * 256 ^ 6 + b2 * 256 ^ 5 + b3 * 256 ^ 4 + b4 * 256 ^ 3
        + b5 * 256 ^ 2 + b6 * 256 + b7 := by
  rw [or_shift_step b7 b6 8 64 (by omega) h6 (by omega),
    or_shift_step _ b5 16 64 (by omega) h5 (by omega),
    or_shift_step _ b4 24 64 (by omega) h4 (by omega),
    or_shift_step _ b3 32 64 (by omega) h3 (by omega),
    or_shift_step _ b2 40 64 (by omega) h2 (by omega),
    or_shift_step _ b1 48 64 (by omega) h1 (by omega),
    or_shift_step _ b0 56 64 (by omega) h0 (by omega)]
  omega

/-- C13: when the exchange delivers a response of at least 4 bytes
`b0 b1 b2 b3 ...`, `SendCommandAndGetResponseAsUint32` returns with a nil error
the big-endian value `b0*256^3 + b1*256^2 + b2*256 + b3`; when it delivers at
least 8 bytes `b0 .. b7 ...`, `SendCommandAndGetResponseAsUint64` returns with
a nil error `b0*256^7 + ... + b6*256 + b7`.  Neither value depends on the
bytes after the first 4, respectively 8. -/
theorem uint32_uint64_decode_big_endian {σ : Type} (S : Serial σ) (fuel : Nat)
    (s s1 : State σ) (command : GoString) (b0 b1 b2 b3 b4 b5 b6 b7 : Byte)
    (rest : List Byte) :
    (SendCommandAndGetResponse S fuel s command
        = (Exec.ret (b0 :: b1 :: b2 :: b3 :: rest, none), s1) →
      SendCommandAndGetResponseAsUint32 S fuel s command
        = (Exec.ret (b0.val * 256 ^ 3 + b1.val * 256 ^ 2 + b2.val * 256 + b3.val, none), s1))
    ∧ (SendCommandAndGetResponse S fuel s command
        = (Exec.ret (b0 :: b1 :: b2 :: b3 :: b4 :: b5 :: b6 :: b7 :: rest, none), s1) →
      SendCommandAndGetResponseAsUint64 S fuel s command
        = (Exec.ret (b0.val * 256 ^ 7 + b1.val * 256 ^ 6 + b2.val * 256 ^ 5 + b3.val * 256 ^ 4
            + b4.val * 256 ^ 3 + b5.val * 256 ^ 2 + b6.val * 256 + b7.val, none), s1)) := by
  constructor
  · intro h
    have hv := bigEndian32_value b0.val b1.val b2.val b3.val b0.isLt b1.isLt b2.isLt b3.isLt
    simp only [SendCommandAndGetResponseAsUint32, h, BigEndian.Uint32, List.length_cons]
    simp only [List.getD_cons_zero, List.getD_cons_succ] at hv ⊢
    rw [if_neg (by omega), if_neg (by omega)]
    simp only [hv]
  · intro h
    have hv := bigEndian64_value b0.val b1.val b2.val b3.val b4.val b5.val b6.val b7.val
      b0.isLt b1.isLt b2.isLt b3.isLt b4.isLt b5.isLt b6.isLt b7.isLt
    simp only [SendCommandAndGetResponseAsUint64, h, BigEndian.Uint64, List.length_cons]
    simp only [List.getD_cons_zero, List.getD_cons_succ] at hv ⊢
    rw [if_neg (by omega), if_neg (by omega)]
    simp only [hv]

/-- Witness of C13: `[0x00, 0x00, 0x01, 0x00]` decodes as UInt32 to 256, and
`[0, 0, 0, 0, 0, 0, 1, 0]` as UInt64 to 256. -/
theorem uint32_uint64_decode_big_endian_witness :
    SendCommandAndGetResponseAsUint32 (stubSerial (Stub.replying [0x00, 0x00, 0x01, 0x00])) 1
        (State.connected (Stub.replying [0x00, 0x00, 0x01, 0x00])) (lit "<GETCPM>>")
      = (Exec.ret ((0 : Byte).val * 256 ^ 3 + (0 : Byte).val * 256 ^ 2 + (1 : Byte).val * 256
          + (0 : Byte).val, none),
          State.exchanged (Stub.replying [0x00, 0x00, 0x01, 0x00]) (lit "<GETCPM>>"))
    ∧ SendCommandAndGetResponseAsUint64 (stubSerial (Stub.replying [0, 0, 0, 0, 0, 0, 1, 0])) 1
        (State.connected (Stub.replying [0, 0, 0, 0, 0, 0, 1, 0])) (lit "<GETCPM>>")
      = (Exec.ret ((0 : Byte).val * 256 ^ 7 + (0 : Byte).val * 256 ^ 6 + (0 : Byte).val * 256 ^ 5
          + (0 : Byte).val * 256 ^ 4 + (0 : Byte).val * 256 ^ 3 + (0 : Byte).val * 256 ^ 2
          + (1 : Byte).val * 256 + (0 : Byte).val, none),
          State.exchanged (Stub.replying [0, 0, 0, 0, 0, 0, 1, 0]) (lit "<GETCPM>>")) :=
  ⟨(uint32_uint64_decode_big_endian (stubSerial (Stub.replying [0x00, 0x00, 0x01, 0x00])) 1
      (State.connected (Stub.replying [0x00, 0x00, 0x01, 0x00]))
      (State.exchanged (Stub.replying [0x00, 0x00, 0x01, 0x00]) (lit "<GETCPM>>"))
      (lit "<GETCPM>>") 0 0 1 0 0 0 0 0 []).1 (by decide),
   (uint32_uint64_decode_big_endian (stubSerial (Stub.replying [0, 0, 0, 0, 0, 0, 1, 0])) 1
      (State.connected (Stub.replying [0, 0, 0, 0, 0, 0, 1, 0]))
      (State.exchanged (Stub.replying [0, 0, 0, 0, 0, 0, 1, 0]) (lit "<GETCPM>>"))
      (lit "<GETCPM>>") 0 0 0 0 0 0 1 0 []).2 (by decide)⟩

/-! ### Short responses -/

/-- C14: when the exchange delivers a non-empty response shorter than the
decoder's width, the integer decoder does not return a value: it stops with
the index-out-of-range panic of the fixed-width read.  This holds for the
UInt16 decoder on a response of length 1, for the UInt32 decoder on lengths
1..3 and for the UInt64 decoder on lengths 1..7. -/
theorem short_response_decoders_fail {σ : Type} (S : Serial σ) (fuel : Nat) (s s1 : State σ)
    (command : GoString) (b : List Byte)
    (h : SendCommandAndGetResponse S fuel s command = (Exec.ret (b, none), s1)) :
    (b.length = 1 →
      SendCommandAndGetResponseAsUint16 S fuel s command
        = (Exec.panic Panic.indexOutOfRange, s1))
    ∧ (1 ≤ b.length ∧ b.length ≤ 3 →
      SendCommandAndGetResponseAsUint32 S fuel s command
        = (Exec.panic Panic.indexOutOfRange, s1))
    ∧ (1 ≤ b.length ∧ b.length ≤ 7 →
      SendCommandAndGetResponseAsUint64 S fuel s command
        = (Exec.panic Panic.indexOutOfRange, s1)) := by
  refine ⟨?_, ?_, ?_⟩
  · intro hl
    simp [SendCommandAndGetResponseAsUint16, h, BigEndian.Uint16, hl]
  · intro hl
    have h0 : b.length ≠ 0 := by omega
    have h3 : b.length ≤ 3 := hl.2
    simp [SendCommandAndGetResponseAsUint32, h, BigEndian.Uint32, h0, h3]
  · intro hl
    have h0 : b.length ≠ 0 := by omega
    have h7 : b.length ≤ 7 := hl.2
    simp [SendCommandAndGetResponseAsUint64, h, BigEndian.Uint64, h0, h7]

/-- Witness of C14: a one-byte response. -/
theorem short_response_decoders_fail_witness :
    (([5] : List Byte).length = 1 →
      SendCommandAndGetResponseAsUint16 (stubSerial (Stub.replying [5])) 1
          (State.connected (Stub.replying [5])) (lit "<GETCPM>>")
        = (Exec.panic Panic.indexOutOfRange,
            State.exchanged (Stub.replying [5]) (lit "<GETCPM>>")))
    ∧ (1 ≤ ([5] : List Byte).length ∧ ([5] : List Byte).length ≤ 3 →
      SendCommandAndGetResponseAsUint32 (stubSerial (Stub.replying [5])) 1
          (State.connected (Stub.replying [5])) (lit "<GETCPM>>")
        = (Exec.panic Panic.indexOutOfRange,
            State.exchanged (Stub.replying [5]) (lit "<GETCPM>>")))
    ∧ (1 ≤ ([5] : List Byte).length ∧ ([5] : List Byte).length ≤ 7 →
      SendCommandAndGetResponseAsUint64 (stubSerial (Stub.replying [5])) 1
          (State.connected (Stub.replying [5])) (lit "<GETCPM>>")
        = (Exec.panic Panic.indexOutOfRange,
            State.exchanged (Stub.replying [5]) (lit "<GETCPM>>"))) :=
  short_response_decoders_fail (stubSerial (Stub.replying [5])) 1
    (State.connected (Stub.replying [5]))
    (State.exchanged (Stub.replying [5]) (lit "<GETCPM>>")) (lit "<GETCPM>>") [5] (by decide)

/-! ### Read and status errors -/

/-- C16: in a connected session, if the line-status query fails with error
`e`, `ReadFromPort` returns a nil response with exactly `e`; the only effect
is the status query, no `Read` is issued. -/
theorem status_error_aborts_read {σ : Type} (S : Serial σ) (s : State σ) (p : σ) (e : Error)
    (hopen : s.conn.isOpened = true) (hport : s.conn.port = some p)
    (hst : (S.GetModemStatusBits p).1 = some e) :
    ReadFromPort S s
      = (Exec.ret ([], some e),
          { conn := { s.conn with port := some (S.GetModemStatusBits p).2 },
            trace := s.trace ++ [Event.status] }) := by
  simp [ReadFromPort, hopen, hport, hst]

/-- Witness of C16: a port whose status query fails although a `Read` would
have delivered two bytes. -/
theorem status_error_aborts_read_witness :
    ReadFromPort (stubSerial Stub.failingStatus) (State.connected Stub.failingStatus)
      = (Exec.ret ([], some (Error.transport 6)),
          { conn := { (State.connected Stub.failingStatus).conn with
              port := some ((stubSerial Stub.failingStatus).GetModemStatusBits
                Stub.failingStatus).2 },
            trace := (State.connected Stub.failingStatus).trace ++ [Event.status] }) :=
  status_error_aborts_read (stubSerial Stub.failingStatus) (State.connected Stub.failingStatus)
    Stub.failingStatus (Error.transport 6) (by decide) (by decide) (by decide)

/-- C15: in a connected session in which the `Write` call accepts the whole
command and the line-status query succeeds, if the `Read` call returns a
non-nil error `e`, whatever byte count and bytes come with it, then
`ReadFromPort` and `SendCommandAndGetResponse` return a nil response together
with exactly `e`, and the typed wrappers return their zero value (empty
string, 0, zero time) together with `e`. -/
theorem read_error_is_returned {σ : Type} (S : Serial σ) (Local : Location) (fuel : Nat)
    (s : State σ) (command : GoString) (p : σ) (e : Error)
    (hopen : s.conn.isOpened = true)
    (hport : s.conn.port = some p)
    (hw : (command.length : Int) ≤ (S.Write p command).1.1)
    (hst : (S.GetModemStatusBits (S.Write p command).2).1 = none)
    (hr : (S.Read (S.GetModemStatusBits (S.Write p command).2).2
      (List.replicate 1024 0)).1.2.2 = some e) :
    (ReadFromPort S
        { conn := { s.conn with port := some (S.Write p command).2 },
          trace := s.trace ++ [Event.write command,
            Event.sleep s.conn.config.WaitBetweenSendAndReceive] }).1
      = Exec.ret ([], some e)
    ∧ (SendCommandAndGetResponse S (fuel + 1) s command).1 = Exec.ret ([], some e)
    ∧ (SendCommandAndGetResponseAsString S (fuel + 1) s command).1 = Exec.ret ([], some e)
    ∧ (SendCommandAndGetResponseAsUint16 S (fuel + 1) s command).1 = Exec.ret (0, some e)
    ∧ (SendCommandAndGetResponseAsUint32 S (fuel + 1) s command).1 = Exec.ret (0, some e)
    ∧ (SendCommandAndGetResponseAsUint64 S (fuel + 1) s command).1 = Exec.ret (0, some e)
    ∧ (SendCommandAndGetResponseAsDateTime S Local (fuel + 1) s command).1
        = Exec.ret (Time.zero, some e) := by
  have hwp : WriteToPort S (fuel + 1) s command
      = (Exec.ret none,
          { conn := { s.conn with port := some (S.Write p command).2 },
            trace := s.trace ++ [Event.write command] }) := by
    simp only [WriteToPort, hport, List.take_length, List.drop_zero]
    rw [WriteToPort.loop_done _ _ _ hw]
  have hrd : (ReadFromPort S
        { conn := { s.conn with port := some (S.Write p command).2 },
          trace := s.trace ++ [Event.write command,
            Event.sleep s.conn.config.WaitBetweenSendAndReceive] })
      = (Exec.ret ([], some e),
          { conn := { s.conn with
              port := some (S.Read (S.GetModemStatusBits (S.Write p command).2).2
                (List.replicate 1024 0)).2 },
            trace := s.trace ++ [Event.write command,
              Event.sleep s.conn.config.WaitBetweenSendAndReceive, Event.status,
              Event.read 1024] }) := by
    simp only [ReadFromPort, hopen, hst, hr]
    simp
  have hex : SendCommandAndGetResponse S (fuel + 1) s command
      = (Exec.ret ([], some e),
          { conn := { s.conn with
              port := some (S.Read (S.GetModemStatusBits (S.Write p command).2).2
                (List.replicate 1024 0)).2 },
            trace := s.trace ++ [Event.write command,
              Event.sleep s.conn.config.WaitBetweenSendAndReceive, Event.status,
              Event.read 1024] }) := by
    simp only [SendCommandAndGetResponse, hwp]
    simp only [List.append_assoc, List.singleton_append]
    rw [hrd]
  refine ⟨by rw [hrd], by rw [hex], ?_, ?_, ?_, ?_, ?_⟩
  · simp only [SendCommandAndGetResponseAsString, hex]
  · simp only [SendCommandAndGetResponseAsUint16, hex]
  · simp only [SendCommandAndGetResponseAsUint32, hex]
  · simp only [SendCommandAndGetResponseAsUint64, hex]
  · simp only [SendCommandAndGetResponseAsDateTime, hex]

/-- Witness of C15: a port whose `Read` reports two bytes together with the
error `transport 7`. -/
theorem read_error_is_returned_witness :
    (ReadFromPort (stubSerial Stub.failingRead)
        { conn := { (State.connected Stub.failingRead).conn with
            port := some ((stubSerial Stub.failingRead).Write Stub.failingRead
              (lit "<GETCPM>>")).2 },
          trace := (State.connected Stub.failingRead).trace ++ [Event.write (lit "<GETCPM>>"),
            Event.sleep
              (State.connected Stub.failingRead).conn.config.WaitBetweenSendAndReceive] }).1
      = Exec.ret ([], some (Error.transport 7))
    ∧ (SendCommandAndGetResponse (stubSerial Stub.failingRead) (0 + 1)
        (State.connected Stub.failingRead) (lit "<GETCPM>>")).1
      = Exec.ret ([], some (Error.transport 7))
    ∧ (SendCommandAndGetResponseAsString (stubSerial Stub.failingRead) (0 + 1)
        (State.connected Stub.failingRead) (lit "<GETCPM>>")).1
      = Exec.ret ([], some (Error.transport 7))
    ∧ (SendCommandAndGetResponseAsUint16 (stubSerial Stub.failingRead) (0 + 1)
        (State.connected Stub.failingRead) (lit "<GETCPM>>")).1
      = Exec.ret (0, some (Error.transport 7))
    ∧ (SendCommandAndGetResponseAsUint32 (stubSerial Stub.failingRead) (0 + 1)
        (State.connected Stub.failingRead) (lit "<GETCPM>>")).1
      = Exec.ret (0, some (Error.transport 7))
    ∧ (SendCommandAndGetResponseAsUint64 (stubSerial Stub.failingRead) (0 + 1)
        (State.connected Stub.failingRead) (lit "<GETCPM>>")).1
      = Exec.ret (0, some (Error.transport 7))
    ∧ (SendCommandAndGetResponseAsDateTime (stubSerial Stub.failingRead) Location.UTC (0 + 1)
        (State.connected Stub.failingRead) (lit "<GETCPM>>")).1
      = Exec.ret (Time.zero, some (Error.transport 7)) :=
  read_error_is_returned (stubSerial Stub.failingRead) Location.UTC 0
    (State.connected Stub.failingRead)
    (lit "<GETCPM>>") Stub.failingRead (Error.transport 7)
    (by decide) (by decide) (by decide) (by decide) (by decide)

/-! ### Order of effects -/

theorem ReadFromPort_ret_ok {σ : Type} (S : Serial σ) (s s1 : State σ) (response : List Byte)
    (h : ReadFromPort S s = (Exec.ret (response, none), s1)) :
    s1.trace = s.trace ++ [Event.status, Event.read 1024] ∧ response.length ≤ 1024 := by
  unfold ReadFromPort at h
  cases hopen : s.conn.isOpened with
  | false => simp [hopen] at h
  | true =>
    cases hp : s.conn.port with
    | none => simp [hopen, hp] at h
    | some p =>
      simp only [hopen, hp, Bool.not_true, Bool.false_eq_true, if_false] at h
      split_ifs at h with h1 h2 h3
      · simp only [Prod.mk.injEq, Exec.ret.injEq] at h
        exact absurd h.1.2 h1
      · simp only [Prod.mk.injEq, Exec.ret.injEq] at h
        exact absurd h.1.2 h2
      · simp at h
      · simp only [Prod.mk.injEq, Exec.ret.injEq, List.nil_append] at h
        obtain ⟨⟨hresp, -⟩, hs⟩ := h
        constructor
        · rw [← hs]
          simp
        · rw [← hresp, List.length_take, fillBuffer_length, List.length_replicate]
          omega

/-- C17: in every exchange that returns without error the effects on the
session are, in this order and no others: one `Write` call with the wire
command, one sleep of the configured `WaitBetweenSendAndReceive`, one
line-status query and one `Read` into a buffer of capacity 1024; the returned
response has at most 1024 bytes. -/
theorem exchange_effects_in_order {σ : Type} (S : Serial σ) (fuel : Nat) (s s1 : State σ)
    (command : GoString) (response : List Byte)
    (h : SendCommandAndGetResponse S fuel s command = (Exec.ret (response, none), s1)) :
    s1.trace = s.trace ++ [Event.write command,
        Event.sleep s.conn.config.WaitBetweenSendAndReceive, Event.status, Event.read 1024]
      ∧ response.length ≤ 1024 := by
  unfold SendCommandAndGetResponse at h
  rcases hw : WriteToPort S fuel s command with ⟨r, sw⟩
  rw [hw] at h
  cases r with
  | panic q => simp at h
  | outOfFuel => simp at h
  | ret v =>
    cases v with
    | some err => simp at h
    | none =>
      obtain ⟨p, -, hsw⟩ := WriteToPort_ret S fuel s sw command none hw
      simp only at h
      rcases hr : ReadFromPort S
        { sw with trace := sw.trace ++ [Event.sleep sw.conn.config.WaitBetweenSendAndReceive] }
        with ⟨r2, sr⟩
      rw [hr] at h
      cases r2 with
      | panic q => simp at h
      | outOfFuel => simp at h
      | ret v2 =>
        obtain ⟨resp, err2⟩ := v2
        cases err2 with
        | some err => simp at h
        | none =>
          simp only [Prod.mk.injEq, Exec.ret.injEq, and_true] at h
          obtain ⟨hresp, hs⟩ := h
          obtain ⟨htr, hlen⟩ := ReadFromPort_ret_ok S _ sr resp hr
          subst hs hresp
          refine ⟨?_, hlen⟩
          rw [htr, hsw]
          simp

/-- Witness of C17: one exchange on a port that answers with two bytes. -/
theorem exchange_effects_in_order_witness :
    (State.exchanged (Stub.replying [0x00, 0x0F]) (lit "<GETCPM>>")).trace
        = (State.connected (Stub.replying [0x00, 0x0F])).trace ++ [Event.write (lit "<GETCPM>>"),
          Event.sleep
            (State.connected (Stub.replying [0x00, 0x0F])).conn.config.WaitBetweenSendAndReceive,
          Event.status, Event.read 1024]
      ∧ ([0x00, 0x0F] : List Byte).length ≤ 1024 :=
  exchange_effects_in_order (stubSerial (Stub.replying [0x00, 0x0F])) 1
    (State.connected (Stub.replying [0x00, 0x0F]))
    (State.exchanged (Stub.replying [0x00, 0x0F]) (lit "<GETCPM>>"))
    (lit "<GETCPM>>") [0x00, 0x0F] (by decide)

/-! ### Timestamp decoder: when it fails -/

/-- C18: for a response delivered by a successful exchange,
`SendCommandAndGetResponseAsDateTime` returns normally, and its error is
non-nil exactly when the response length is neither 0 nor 7.  The empty
response gives the zero time with a nil error; every 7-byte response gives a
nil error and the value `time.Date(2000+b[0], b[1], .., b[5], 0, Local)`,
whatever the field bytes are and whatever the zone table `Local` is. -/
theorem dateTime_error_iff_length {σ : Type} (S : Serial σ) (Local : Location) (fuel : Nat)
    (s s1 : State σ) (command : GoString) (b : List Byte)
    (h : SendCommandAndGetResponse S fuel s command = (Exec.ret (b, none), s1)) :
    ∃ (t : Time) (err : Option Error),
      SendCommandAndGetResponseAsDateTime S Local fuel s command = (Exec.ret (t, err), s1)
      ∧ (err ≠ none ↔ (b.length ≠ 0 ∧ b.length ≠ 7))
      ∧ (b.length = 0 → t = Time.zero ∧ err = none)
      ∧ (b.length = 7 → err = none
          ∧ t = Date (2000 + ((b.getD 0 0).val : Int)) ((b.getD 1 0).val : Int)
              ((b.getD 2 0).val : Int) ((b.getD 3 0).val : Int) ((b.getD 4 0).val : Int)
              ((b.getD 5 0).val : Int) 0 Local) := by
  by_cases h0 : b.length = 0
  · refine ⟨Time.zero, none, ?_, ?_, ?_, ?_⟩
    · simp [SendCommandAndGetResponseAsDateTime, h, h0]
    · simp [h0]
    · intro _
      exact ⟨rfl, rfl⟩
    · intro h7
      omega
  · by_cases h7 : b.length = 7
    · refine ⟨Date (2000 + ((b.getD 0 0).val : Int)) ((b.getD 1 0).val : Int)
          ((b.getD 2 0).val : Int) ((b.getD 3 0).val : Int) ((b.getD 4 0).val : Int)
          ((b.getD 5 0).val : Int) 0 Local, none, ?_, ?_, ?_, ?_⟩
      · simp only [SendCommandAndGetResponseAsDateTime, h, h0, h7, if_false, ne_eq,
          not_true_eq_false]
        rw [if_neg (by decide)]
      · simp [h7]
      · intro hz
        exact absurd hz h0
      · intro _
        exact ⟨rfl, rfl⟩
    · refine ⟨Time.zero, some (Error.invalidDateTimeLength b.length), ?_, ?_, ?_, ?_⟩
      · simp [SendCommandAndGetResponseAsDateTime, h, h0, h7]
      · simp [h0, h7]
      · intro hz
        exact absurd hz h0
      · intro hz
        exact absurd hz h7

/-- Witness of C18: a 7-byte response with month 13, day 32, hour 25, minute
61 and second 61 is decoded with a nil error. -/
theorem dateTime_error_iff_length_witness :
    ∃ (t : Time) (err : Option Error),
      SendCommandAndGetResponseAsDateTime (stubSerial (Stub.replying [0, 13, 32, 25, 61, 61, 9]))
          newYork 1
          (State.connected (Stub.replying [0, 13, 32, 25, 61, 61, 9])) (lit "<GETDATETIME>>")
        = (Exec.ret (t, err),
            State.exchanged (Stub.replying [0, 13, 32, 25, 61, 61, 9]) (lit "<GETDATETIME>>"))
      ∧ (err ≠ none ↔ (([0, 13, 32, 25, 61, 61, 9] : List Byte).length ≠ 0
          ∧ ([0, 13, 32, 25, 61, 61, 9] : List Byte).length ≠ 7))
      ∧ (([0, 13, 32, 25, 61, 61, 9] : List Byte).length = 0 → t = Time.zero ∧ err = none)
      ∧ (([0, 13, 32, 25, 61, 61, 9] : List Byte).length = 7 → err = none
          ∧ t = Date (2000 + (((([0, 13, 32, 25, 61, 61, 9] : List Byte).getD 0 0).val : Nat) : Int))
              (((([0, 13, 32, 25, 61, 61, 9] : List Byte).getD 1 0).val : Nat) : Int)
              (((([0, 13, 32, 25, 61, 61, 9] : List Byte).getD 2 0).val : Nat) : Int)
              (((([0, 13, 32, 25, 61, 61, 9] : List Byte).getD 3 0).val : Nat) : Int)
              (((([0, 13, 32, 25, 61, 61, 9] : List Byte).getD 4 0).val : Nat) : Int)
              (((([0, 13, 32, 25, 61, 61, 9] : List Byte).getD 5 0).val : Nat) : Int)
              0 newYork) :=
  dateTime_error_iff_length (stubSerial (Stub.replying [0, 13, 32, 25, 61, 61, 9])) newYork 1
    (State.connected (Stub.replying [0, 13, 32, 25, 61, 61, 9]))
    (State.exchanged (Stub.replying [0, 13, 32, 25, 61, 61, 9]) (lit "<GETDATETIME>>"))
    (lit "<GETDATETIME>>") [0, 13, 32, 25, 61, 61, 9] (by decide)

/-! ### The write loop as it is -/

/-- C19: on a `Connector` with a port, `WriteToPort` issues exactly one
`Write` call, with the entire data, whatever the fuel; with `n` and `err` the
count and error of that call, it returns nil when `n ≥ len(data)`, it returns
`err` when `n < len(data)` and `err` is non-nil, and it never returns when
`n < len(data)` and `err` is nil; so it returns for some fuel exactly when
`n ≥ len(data)` or `err` is non-nil. -/
theorem writeToPort_single_write {σ : Type} (S : Serial σ) (s : State σ) (data : List Byte)
    (p : σ) (hport : s.conn.port = some p) :
    (∀ fuel, (WriteToPort S fuel s data).2
        = { conn := { s.conn with port := some (S.Write p data).2 },
            trace := s.trace ++ [Event.write data] })
    ∧ ((data.length : Int) ≤ (S.Write p data).1.1 →
        ∀ fuel, (WriteToPort S (fuel + 1) s data).1 = Exec.ret none)
    ∧ (∀ e, (S.Write p data).1.1 < (data.length : Int) → (S.Write p data).1.2 = some e →
        ∀ fuel, (WriteToPort S (fuel + 1) s data).1 = Exec.ret (some e))
    ∧ ((S.Write p data).1.1 < (data.length : Int) → (S.Write p data).1.2 = none →
        ∀ fuel, (WriteToPort S fuel s data).1 = Exec.outOfFuel)
    ∧ ((∃ fuel v, (WriteToPort S fuel s data).1 = Exec.ret v)
        ↔ ((data.length : Int) ≤ (S.Write p data).1.1 ∨ (S.Write p data).1.2 ≠ none)) := by
  have hW : ∀ fuel, WriteToPort S fuel s data
      = (WriteToPort.loop (S.Write p data).1.1 (data.length : Int) (S.Write p data).1.2 fuel,
          { conn := { s.conn with port := some (S.Write p data).2 },
            trace := s.trace ++ [Event.write data] }) := by
    intro fuel
    simp only [WriteToPort, hport, List.take_length, List.drop_zero]
  have hdone : (data.length : Int) ≤ (S.Write p data).1.1 →
      ∀ fuel, (WriteToPort S (fuel + 1) s data).1 = Exec.ret none := by
    intro hn fuel
    rw [hW, WriteToPort.loop_done _ _ _ hn]
  have herr : ∀ e, (S.Write p data).1.1 < (data.length : Int) → (S.Write p data).1.2 = some e →
      ∀ fuel, (WriteToPort S (fuel + 1) s data).1 = Exec.ret (some e) := by
    intro e hn he fuel
    rw [hW]
    simp [WriteToPort.loop, hn, he]
  have hstuck : (S.Write p data).1.1 < (data.length : Int) → (S.Write p data).1.2 = none →
      ∀ fuel, (WriteToPort S fuel s data).1 = Exec.outOfFuel := by
    intro hn he fuel
    rw [hW, he, WriteToPort.loop_stuck _ _ hn]
  refine ⟨fun fuel => by rw [hW], hdone, herr, hstuck, ?_⟩
  constructor
  · rintro ⟨fuel, v, hv⟩
    by_contra hcon
    simp only [not_or, not_le, ne_eq, not_not] at hcon
    rw [hstuck hcon.1 hcon.2 fuel] at hv
    exact Exec.noConfusion hv
  · intro hc
    by_cases hn : (data.length : Int) ≤ (S.Write p data).1.1
    · exact ⟨1, none, hdone hn 0⟩
    · rcases hc with hc | hc
      · exact absurd hc hn
      · cases he : (S.Write p data).1.2 with
        | none => exact absurd he hc
        | some e => exact ⟨1, some e, herr e (by omega) he 0⟩

/-- Witness of C19: the port whose `Write` accepts 3 of the 9 bytes. -/
theorem writeToPort_single_write_witness :
    (∀ fuel, (WriteToPort (stubSerial Stub.shortWrite) fuel (State.connected Stub.shortWrite)
          (lit "<GETVER>>")).2
        = { conn := { (State.connected Stub.shortWrite).conn with
              port := some ((stubSerial Stub.shortWrite).Write Stub.shortWrite
                (lit "<GETVER>>")).2 },
            trace := (State.connected Stub.shortWrite).trace ++ [Event.write (lit "<GETVER>>")] })
    ∧ (∀ fuel, (WriteToPort (stubSerial Stub.shortWrite) fuel (State.connected Stub.shortWrite)
          (lit "<GETVER>>")).1 = Exec.outOfFuel) :=
  ⟨(writeToPort_single_write (stubSerial Stub.shortWrite) (State.connected Stub.shortWrite)
      (lit "<GETVER>>") Stub.shortWrite (by decide)).1,
   (writeToPort_single_write (stubSerial Stub.shortWrite) (State.connected Stub.shortWrite)
      (lit "<GETVER>>") Stub.shortWrite (by decide)).2.2.2.1 (by decide) (by decide)⟩

end Gmc300e
